import Mathlib

/-!
# FireSight `calibrate.cpp`: the `matchGrid` stage

A shallow embedding of `src/calibrate.cpp` and theorems about it.

Modelling conventions.

* A C `float`/`double` is a rational (`ℚ`); there is no NaN and no infinity.
  The arithmetic on them is exact, except in `calcObjPointDiff`, where every
  `float` operation is rounded to binary32 (`fl32`), because the result of that
  function turns on the rounding.
* Every conversion of a floating value to `int` that the source performs is
  kept (`toInt`): truncation toward zero into the 32-bit range of `int`.  Out
  of that range the conversion is undefined in C++; the model returns what the
  x86 conversion instruction returns, `INT_MIN`.
* `int` counters are `Int`; the loop index `n` is a `Nat`.
* `sqrt` is a parameter `fsqrt : ℚ → ℚ` of the functions that call it; `sqrtQ`
  is a computable instance that is exact on squares of rationals.
* Reading `v[i]` past the end of a `std::vector` is undefined behaviour; the
  functions that do it return `none` there.
* The JSON diagnostics written into `pStageModel` have no influence on the
  control flow and are left out, apart from the `rects` array; the `cout`
  debugging output is left out too.
-/

namespace FireSight

/-! ## Points -/

/-- The OpenCV type `cv::Point2f`. -/
structure Point2f where
  x : ℚ
  y : ℚ
deriving DecidableEq

/-- The OpenCV type `cv::Point3f`. -/
structure Point3f where
  x : ℚ
  y : ℚ
  z : ℚ
deriving DecidableEq

/-- The default constructor `Point2f()`. -/
instance : Inhabited Point2f := ⟨⟨0, 0⟩⟩

/-- The default constructor `Point3f()`. -/
instance : Inhabited Point3f := ⟨⟨0, 0, 0⟩⟩

instance : Add Point2f := ⟨fun a b => ⟨a.x + b.x, a.y + b.y⟩⟩

instance : Sub Point2f := ⟨fun a b => ⟨a.x - b.x, a.y - b.y⟩⟩

instance : Add Point3f := ⟨fun a b => ⟨a.x + b.x, a.y + b.y, a.z + b.z⟩⟩

/-- The constant `INT_MIN` of `<limits.h>` for a 32-bit `int`. -/
def INT_MIN : Int := -2147483648

/-- The constant `INT_MAX` of `<limits.h>` for a 32-bit `int`. -/
def INT_MAX : Int := 2147483647

/-- Truncation toward zero, as an unbounded integer. -/
def truncate (q : ℚ) : Int := q.num.tdiv q.den

/-- Conversion of a floating value to `int`: truncation toward zero when the
truncated value is in the range of `int`.  Otherwise the conversion is
undefined in C++, and the value is what the x86 conversion instruction
(`cvttss2si`) returns, `INT_MIN`. -/
def toInt (q : ℚ) : Int :=
  if INT_MIN ≤ truncate q ∧ truncate q ≤ INT_MAX then truncate q else INT_MIN

/-! ## Rounding to binary32 -/

/-- The loop of `natLog2`, with `fuel` as a bound on its iterations. -/
def bitsAux : Nat → Nat → Nat
  | 0, _ => 0
  | fuel + 1, n => if 2 ≤ n then bitsAux fuel (n / 2) + 1 else 0

/-- The position of the leading bit of `n`: the largest `k` with `2 ^ k ≤ n`,
and 0 for `n = 0`. -/
def natLog2 (n : Nat) : Nat := bitsAux n n

/-- The binary exponent of a positive rational `a`: the largest `k` with
`2 ^ k ≤ a`. -/
def ilog2 (a : ℚ) : Int :=
  let k : Int := (natLog2 a.num.toNat : Int) - (natLog2 a.den : Int)
  if (2 : ℚ) ^ k ≤ a then k else k - 1

/-- Rounding to the nearest integer, ties to the even one. -/
def roundHalfEven (n : ℚ) : Int :=
  let f := ⌊n⌋
  if n - f < 1 / 2 then f
  else if 1 / 2 < n - f then f + 1
  else if f % 2 = 0 then f else f + 1

/-- Rounding to the nearest binary32 value (IEEE 754 single precision, round
to nearest, ties to even): 24 significant bits, with the spacing `2 ^ (-149)`
of the subnormal numbers below `2 ^ (-126)`.  There is no overflow to
infinity: above `FLT_MAX` the 24 bits are kept with an unbounded exponent. -/
def fl32 (q : ℚ) : ℚ :=
  let e : Int := max (ilog2 |q|) (-126)
  let u : ℚ := (2 : ℚ) ^ (e - 23)
  (roundHalfEven (q / u) : ℚ) * u

/-- The constant `FLT_MAX` of `<float.h>`. -/
def FLT_MAX : ℚ := 340282346638528859811704183484516925440

/-- A square root on `ℚ` that is exact on the squares of rationals (and rounds
numerator and denominator down elsewhere). -/
def sqrtQ (q : ℚ) : ℚ := (Nat.sqrt q.num.toNat : ℚ) / (Nat.sqrt q.den : ℚ)

/-! ## `ComparePoint2f` and the sort of `initializePointMaps` -/

/-- The `enum CompareOp`. -/
inductive CompareOp where
  | COMPARE_XY
  | COMPARE_YX
deriving DecidableEq

/-- `ComparePoint2f::operator()`: the difference of the first coordinate is
stored in an `int`, and the second coordinate is consulted when that `int` is
`0`. -/
def ComparePoint2f (op : CompareOp) (lhs rhs : Point2f) : Bool :=
  let cmp : Int :=
    match op with
    | .COMPARE_XY =>
      let c := toInt (lhs.x - rhs.x)
      if c = 0 then toInt (lhs.y - rhs.y) else c
    | .COMPARE_YX =>
      let c := toInt (lhs.y - rhs.y)
      if c = 0 then toInt (lhs.x - rhs.x) else c
  decide (cmp < 0)

/-- One pass of the inner loop of the insertion sort: `rev` is the sorted
prefix, last element first; `x` moves left while `LT x (its left neighbour)`. -/
def insertLeftward {α : Type} (LT : α → α → Bool) (x : α) : List α → List α
  | [] => [x]
  | e :: rev => if LT x e then e :: insertLeftward LT x rev else x :: e :: rev

/-- The two-argument `sort(vec, LT)` of OpenCV (`cv::sort` of
`core/operations.hpp`): for up to 7 elements it is this insertion sort.  For
more elements it is a quicksort, whose result is the same whenever `LT` is a
strict total order on the elements; on points with integer coordinates of
magnitude at most 2^23 it is one (`ComparePoint2f_strict`), and the sorted
vector is the only ordered arrangement of the points
(`initializePointMaps_unique`).  The inputs of more than 7 points that are
evaluated below are such points.  For more than 7 points on which `LT` is not
a strict total order the definition stands for the insertion sort only. -/
def cvSort {α : Type} (LT : α → α → Bool) (vec : List α) : List α :=
  (vec.foldl (fun rev x => insertLeftward LT x rev) []).reverse

/-! ## The tolerance band -/

/-- The multiplier `maxTol` of `identifyRows`, `identifyColumns` and
`apply_matchGrid`. -/
def maxTol (median tolerance : ℚ) : ℚ :=
  if median < 0 then 1 - tolerance else 1 + tolerance

/-- The multiplier `minTol`. -/
def minTol (median tolerance : ℚ) : ℚ :=
  if median < 0 then 1 + tolerance else 1 - tolerance

/-- The test `min <= d && d <= max` on an `int` difference `d`. -/
def inBand (lo hi : ℚ) (d : Int) : Bool :=
  decide (lo ≤ (d : ℚ)) && decide ((d : ℚ) ≤ hi)

/-- The median read of lines 110-111 and 184-185: the differences are sorted
ascending and the element at index `size()/2` is read; `none` when that index
is past the end (an empty list). -/
def medianOf (diffs : List ℚ) : Option ℚ :=
  let sorted := diffs.insertionSort (fun a b => a ≤ b)
  sorted[sorted.length / 2]?

/-! ## `identifyColumns` and `identifyRows` -/

/-- The in-out and output parameters of `identifyRows`/`identifyColumns`
together with the returned message. -/
structure AxisResult where
  errMsg : String
  median : ℚ
  tot1 : Point2f
  tot2 : Point2f
  count1 : Int
  count2 : Int
  grid : ℚ
deriving DecidableEq

/-- The variables of the second loop of `identifyRows`/`identifyColumns`. -/
structure ScanState where
  prevPt1 : Point2f
  prevPt2 : Point2f
  n : Nat
  tot1 : Point2f
  tot2 : Point2f
  count1 : Int
  count2 : Int
deriving DecidableEq

/-- The first loop of `identifyColumns` after its first iteration: the
differences `prevPt.x - it->x`. -/
def dxListFrom : Point2f → List Point2f → List ℚ
  | _, [] => []
  | prevPt, p :: rest => (prevPt.x - p.x) :: dxListFrom p rest

/-- The list `dxList` of `identifyColumns`, before it is sorted. -/
def dxListOf : List Point2f → List ℚ
  | [] => []
  | p :: rest => dxListFrom p rest

/-- The first loop of `identifyRows` after its first iteration: the
differences `prevPt.y - it->y`. -/
def dyListFrom : Point2f → List Point2f → List ℚ
  | _, [] => []
  | prevPt, p :: rest => (prevPt.y - p.y) :: dyListFrom p rest

/-- The list `dyList` of `identifyRows`, before it is sorted. -/
def dyListOf : List Point2f → List ℚ
  | [] => []
  | p :: rest => dyListFrom p rest

/-- One iteration of the second loop of `identifyColumns` (lines 198-216). -/
def columnStep (minDx1 maxDx1 minDx2 maxDx2 : ℚ) (s : ScanState) (curPt : Point2f) :
    ScanState :=
  let s1 : ScanState :=
    if 0 < s.n then
      let dx1 : Int := toInt (s.prevPt1.x - curPt.x)
      let sa : ScanState :=
        if inBand minDx1 maxDx1 dx1 then
          { s with tot1 := s.tot1 + (s.prevPt1 - curPt), count1 := s.count1 + 1 }
        else s
      if 1 < s.n then
        let dx2 : Int := toInt (s.prevPt2.x - curPt.x)
        if inBand minDx2 maxDx2 dx2 then
          { sa with tot2 := sa.tot2 + (s.prevPt2 - curPt), count2 := sa.count2 + 1 }
        else sa
      else sa
    else s
  { s1 with prevPt2 := s.prevPt1, prevPt1 := curPt, n := s.n + 1 }

/-- One iteration of the second loop of `identifyRows` (lines 124-142). -/
def rowStep (minDy1 maxDy1 minDy2 maxDy2 : ℚ) (s : ScanState) (curPt : Point2f) :
    ScanState :=
  let s1 : ScanState :=
    if 0 < s.n then
      let dy1 : Int := toInt (s.prevPt1.y - curPt.y)
      let sa : ScanState :=
        if inBand minDy1 maxDy1 dy1 then
          { s with tot1 := s.tot1 + (s.prevPt1 - curPt), count1 := s.count1 + 1 }
        else s
      if 1 < s.n then
        let dy2 : Int := toInt (s.prevPt2.y - curPt.y)
        if inBand minDy2 maxDy2 dy2 then
          { sa with tot2 := sa.tot2 + (s.prevPt2 - curPt), count2 := sa.count2 + 1 }
        else sa
      else sa
    else s
  { s1 with prevPt2 := s.prevPt1, prevPt1 := curPt, n := s.n + 1 }

/-- The message of line 224. -/
def errColumns1 : String := "No grid points matched within tolerance (level 1) dxCount1:0"

/-- The message of line 228. -/
def errColumns2 : String := "No grid points matched within tolerance (level 2) dxCount2:0"

/-- The message of line 150. -/
def errRows1 : String := "No grid points matched within tolerance (level 1) dyCount1:0"

/-- The message of line 154. -/
def errRows2 : String := "No grid points matched within tolerance (level 2) dyCount2:0"

/-- The function `identifyColumns` (lines 172-244).  `dxTot1`, `dxTot2`,
`dxCount1`, `dxCount2` and `gridX` are the values the caller passes in by
reference; `none` is the read of `dxList[0]` in an empty `dxList`. -/
def identifyColumns (fsqrt : ℚ → ℚ) (pointsYX : List Point2f) (dxTot1 dxTot2 : Point2f)
    (dxCount1 dxCount2 : Int) (tolerance : ℚ) (sepX : Int) (gridX : ℚ) :
    Option AxisResult :=
  (medianOf (dxListOf pointsYX)).map fun dxMedian =>
    let maxDx1 := dxMedian * maxTol dxMedian tolerance
    let minDx1 := dxMedian * minTol dxMedian tolerance
    let maxDx2 := 2 * dxMedian * maxTol dxMedian tolerance
    let minDx2 := 2 * dxMedian * minTol dxMedian tolerance
    let s := pointsYX.foldl (columnStep minDx1 maxDx1 minDx2 maxDx2)
      ⟨default, default, 0, dxTot1, dxTot2, dxCount1, dxCount2⟩
    if s.count1 = 0 then
      ⟨errColumns1, dxMedian, s.tot1, s.tot2, s.count1, s.count2, gridX⟩
    else if s.count2 = 0 then
      ⟨errColumns2, dxMedian, s.tot1, s.tot2, s.count1, s.count2, gridX⟩
    else
      let dxAvg2 := s.tot2.x / s.count2 / 2
      let dyAvg2 := s.tot2.y / s.count2 / 2
      let normXY := fsqrt (dxAvg2 * dxAvg2 + dyAvg2 * dyAvg2)
      ⟨"", dxMedian, s.tot1, s.tot2, s.count1, s.count2, normXY / sepX⟩

/-- The function `identifyRows` (lines 98-170); see `identifyColumns`. -/
def identifyRows (fsqrt : ℚ → ℚ) (pointsXY : List Point2f) (dyTot1 dyTot2 : Point2f)
    (dyCount1 dyCount2 : Int) (tolerance : ℚ) (sepY : Int) (gridY : ℚ) :
    Option AxisResult :=
  (medianOf (dyListOf pointsXY)).map fun dyMedian =>
    let maxDy1 := dyMedian * maxTol dyMedian tolerance
    let minDy1 := dyMedian * minTol dyMedian tolerance
    let maxDy2 := 2 * dyMedian * maxTol dyMedian tolerance
    let minDy2 := 2 * dyMedian * minTol dyMedian tolerance
    let s := pointsXY.foldl (rowStep minDy1 maxDy1 minDy2 maxDy2)
      ⟨default, default, 0, dyTot1, dyTot2, dyCount1, dyCount2⟩
    if s.count1 = 0 then
      ⟨errRows1, dyMedian, s.tot1, s.tot2, s.count1, s.count2, gridY⟩
    else if s.count2 = 0 then
      ⟨errRows2, dyMedian, s.tot1, s.tot2, s.count1, s.count2, gridY⟩
    else
      let dxAvg2 := s.tot2.x / s.count2 / 2
      let dyAvg2 := s.tot2.y / s.count2 / 2
      let normXY := fsqrt (dxAvg2 * dxAvg2 + dyAvg2 * dyAvg2)
      ⟨"", dyMedian, s.tot1, s.tot2, s.count1, s.count2, normXY / sepY⟩

/-! ## `initializePointMaps` -/

/-- What `json_object_get(pValue, "x")` can return, as far as the source looks
at it: a JSON real, a JSON integer, or something that is no number (also a
missing key). -/
inductive JsonValue where
  | real (v : ℚ)
  | integer (v : Int)
  | notNumber
deriving DecidableEq

/-- The jansson test `json_is_number`. -/
def json_is_number : JsonValue → Bool
  | .real _ => true
  | .integer _ => true
  | .notNumber => false

/-- The jansson accessor `json_real_value`: the value of a JSON real and `0.0`
for everything else. -/
def json_real_value : JsonValue → ℚ
  | .real v => v
  | _ => 0

/-- One entry of the `rects` array: its members `x` and `y`. -/
structure Rect where
  x : JsonValue
  y : JsonValue
deriving DecidableEq

/-- The loop of `initializePointMaps` (lines 249-259): the points pushed onto
`pointsXY` and `pointsYX`, in array order. -/
def candidatePoints (pRects : List Rect) : List Point2f :=
  pRects.filterMap fun pValue =>
    if json_is_number pValue.x && json_is_number pValue.y then
      some ⟨json_real_value pValue.x, json_real_value pValue.y⟩
    else none

/-- The function `initializePointMaps` (lines 246-264): the pair
`(pointsXY, pointsYX)`. -/
def initializePointMaps (pRects : List Rect) : List Point2f × List Point2f :=
  (cvSort (ComparePoint2f .COMPARE_XY) (candidatePoints pRects),
   cvSort (ComparePoint2f .COMPARE_YX) (candidatePoints pRects))

/-! ## `calcObjPointDiff` and `apply_matchGrid` -/

/-- The function `calcObjPointDiff` (lines 266-272), in binary32: the
difference, the quotient and the sum with `-0.5` or `0.5`, which is stored
back into the `float` variable, are each rounded to binary32 before the
conversion to `int`. -/
def calcObjPointDiff (curPt prevPt imgSep : Point2f) : Point3f :=
  let dObjX := fl32 (fl32 (curPt.x - prevPt.x) / imgSep.x)
  let dObjY := fl32 (fl32 (curPt.y - prevPt.y) / imgSep.y)
  let dObjX := fl32 (dObjX + (if dObjX < 0 then -(1 / 2) else 1 / 2))
  let dObjY := fl32 (dObjY + (if dObjY < 0 then -(1 / 2) else 1 / 2))
  ⟨toInt dObjX, toInt dObjY, 0⟩

/-- The variables of the `while` loop of `apply_matchGrid` (lines 342-388). -/
structure GridState where
  ptImg0 : Point2f
  ptObj : Point3f
  ptImg : Point2f
  imagePts : List Point2f
  objectPts : List Point3f
  objCentroid : Point3f
deriving DecidableEq

/-- One iteration of the `while` loop of `apply_matchGrid` (lines 353-387);
`dx` is the `int dx` of line 340. -/
def gridStep (minDx1 maxDx1 : ℚ) (dx : Int) (imgSep : Point2f) (s : GridState)
    (ptImg1 : Point2f) : GridState :=
  let dx1 : Int := toInt (s.ptImg0.x - ptImg1.x)
  let s1 : GridState :=
    if inBand minDx1 maxDx1 dx1 then
      if s.imagePts.length = 0 then
        let ptObj : Point3f :=
          ⟨toInt (s.ptImg0.x / imgSep.x + 1 / 2), toInt (s.ptImg0.y / imgSep.y + 1 / 2),
            s.ptObj.z⟩
        let ptObj2 : Point3f := ⟨ptObj.x + dx, ptObj.y, ptObj.z⟩
        { s with
          ptObj := ptObj2
          objectPts := (s.objectPts ++ [ptObj]) ++ [ptObj2]
          objCentroid := s.objCentroid + ptObj
          imagePts := (s.imagePts ++ [s.ptImg0]) ++ [ptImg1] }
      else
        let sa : GridState :=
          if s.ptImg ≠ s.ptImg0 then
            let ptObj := s.ptObj + calcObjPointDiff s.ptImg0 s.ptImg imgSep
            { s with
              ptObj := ptObj
              ptImg := s.ptImg0
              objectPts := s.objectPts ++ [ptObj]
              objCentroid := s.objCentroid + ptObj
              imagePts := s.imagePts ++ [s.ptImg0] }
          else s
        let ptObj := sa.ptObj + calcObjPointDiff ptImg1 sa.ptImg imgSep
        { sa with
          ptObj := ptObj
          ptImg := ptImg1
          objectPts := sa.objectPts ++ [ptObj]
          objCentroid := sa.objCentroid + ptObj
          imagePts := sa.imagePts ++ [ptImg1] }
    else s
  { s1 with ptImg0 := ptImg1 }

/-- The configuration of the stage and the part of the model it reads. -/
inductive RectsModel where
  /-- The named stage is no JSON object of the model. -/
  | notObject
  /-- The named stage is an object whose `rects` is no array. -/
  | noArray
  /-- The named stage is an object with this `rects` array. -/
  | rects (pRects : List Rect)
deriving DecidableEq

/-- The inputs of `apply_matchGrid`: the stage parameters read by `jo_string`
and `jo_double` (lines 275-280) and the model entry of line 283. -/
structure StageInput where
  rectsModelName : String
  objZ : ℚ
  sepX : ℚ
  sepY : ℚ
  tolerance : ℚ
  rectsModel : RectsModel
deriving DecidableEq

/-- One record of the `rects` array written at lines 393-401. -/
structure OutRect where
  x : ℚ
  y : ℚ
  objX : ℚ
  objY : ℚ
  objZ : ℚ
deriving DecidableEq

/-- What a run of `apply_matchGrid` leaves behind. -/
structure StageResult where
  /-- The final `errMsg`. -/
  errMsg : String
  /-- The divisor `objectPts.size()` of the centroid division of line 389, when
  that line is evaluated. -/
  centroidDivisor : Option Nat
  /-- The `objCentroid` after line 389, when that line is evaluated. -/
  objCentroid : Option Point3f
  /-- The `rects` array written into `pStageModel`, when it is written. -/
  rects : Option (List OutRect)
  /-- The arguments `imagePts`, `objectPts` of the call of `calibrateImage`
  (line 404), when it is called. -/
  calibrateArgs : Option (List Point2f × List Point3f)
  /-- Whether `undistort` was called and `model.image` replaced by its result
  (lines 407-408). -/
  undistorted : Bool
deriving DecidableEq

/-- The loop of lines 393-401 over `i < objectPts.size()`. -/
def outRects (objSep : Point2f) (objZ : ℚ) (objCentroid : Point3f)
    (imagePts : List Point2f) (objectPts : List Point3f) : List OutRect :=
  (List.range objectPts.length).map fun i =>
    ⟨(imagePts.getD i default).x, (imagePts.getD i default).y,
      objSep.x * ((objectPts.getD i default).x - objCentroid.x),
      objSep.y * ((objectPts.getD i default).y - objCentroid.y), objZ⟩

/-- The `while` loop of `apply_matchGrid` run over `pointsYX` (lines 337-388);
`none` is the read `*itYX` of line 342 in an empty vector. -/
def gridLoop (minDx1 maxDx1 : ℚ) (dx : Int) (imgSep : Point2f) :
    List Point2f → Option GridState
  | [] => none
  | ptImg0 :: rest =>
    some (rest.foldl (gridStep minDx1 maxDx1 dx imgSep)
      ⟨ptImg0, default, default, [], [], default⟩)

/-- The first checks of `apply_matchGrid` (lines 284-300): the message, and
the `rects` array when the message is empty. -/
def checkInput (inp : StageInput) : String × List Rect :=
  if inp.rectsModelName = "" then
    ("matchGrid model: expected name of stage with rects", [])
  else
    match inp.rectsModel with
    | .notObject => ("Named stage is not in model", [])
    | .noArray => ("Expected array of rects to match", [])
    | .rects pRects =>
      if pRects.length < 2 then ("Expected array of at least 2 rects to match", [])
      else ("", pRects)

/-- Lines 324-329: the two messages joined. -/
def joinErrors (errMsg errMsg2 : String) : String :=
  if errMsg = "" then errMsg2
  else if errMsg2 ≠ "" then (errMsg.append "; ").append errMsg2
  else errMsg

/-- The grid assignment of `apply_matchGrid` (lines 332-409), entered when
`errMsg` is empty after the two estimations. -/
def assignGrid (inp : StageInput) (pointsYX : List Point2f) (median : Point2f)
    (gridX gridY : ℚ) : Option StageResult :=
  let maxDx1 := median.x * maxTol median.x inp.tolerance
  let minDx1 := median.x * minTol median.x inp.tolerance
  let dx : Int := if median.x > 0 then 1 else -1
  let objSep : Point2f := ⟨inp.sepX, inp.sepY⟩
  let imgSep : Point2f := ⟨gridX * objSep.x, gridY * objSep.y⟩
  (gridLoop minDx1 maxDx1 dx imgSep pointsYX).map fun s =>
    let n : Nat := s.objectPts.length
    let objCentroid : Point3f := ⟨s.objCentroid.x / n, s.objCentroid.y / n, -inp.objZ⟩
    { errMsg := ""
      centroidDivisor := some n
      objCentroid := some objCentroid
      rects := some (outRects objSep inp.objZ objCentroid s.imagePts s.objectPts)
      calibrateArgs := some (s.imagePts, s.objectPts)
      undistorted := true }

/-- The result of a run that ends with the message `errMsg` before the grid
assignment. -/
def failed (errMsg : String) : StageResult :=
  { errMsg := errMsg, centroidDivisor := none, objCentroid := none, rects := none,
    calibrateArgs := none, undistorted := false }

/-- The function `Pipeline::apply_matchGrid` (lines 274-412).  `none` is a run
that reads past the end of a vector. -/
def apply_matchGrid (fsqrt : ℚ → ℚ) (inp : StageInput) : Option StageResult :=
  let chk := checkInput inp
  if chk.1 = "" then
    let maps := initializePointMaps chk.2
    let pointsXY := maps.1
    let pointsYX := maps.2
    (identifyColumns fsqrt pointsYX default default 0 0 inp.tolerance (toInt inp.sepX)
        FLT_MAX).bind fun cols =>
      (identifyRows fsqrt pointsXY default default 0 0 inp.tolerance (toInt inp.sepY)
          FLT_MAX).bind fun rows =>
        let errMsg := joinErrors cols.errMsg rows.errMsg
        if errMsg = "" then
          assignGrid inp pointsYX ⟨cols.median, rows.median⟩ cols.grid rows.grid
        else some (failed errMsg)
  else some (failed chk.1)

/-! ## Inputs and measures used by the statements -/

/-- A `rects` entry whose `x` and `y` are JSON reals. -/
def realRect (x y : ℚ) : Rect := ⟨.real x, .real y⟩

/-- The scenario of 2 rows by 3 columns at pitch (8,6), `sepX = sepY = 4`,
`tolerance = 0.35`, `objZ = 0`. -/
def scenarioInput : StageInput :=
  { rectsModelName := "grid", objZ := 0, sepX := 4, sepY := 4, tolerance := 35 / 100,
    rectsModel := .rects [realRect 0 0, realRect 8 0, realRect 16 0,
      realRect 0 6, realRect 8 6, realRect 16 6] }

/-- The regular grid of 16 points with `x, y ∈ {0, 10, 20, 30}`,
`sepX = sepY = 5`, `tolerance = 0.35`. -/
def regularGridInput : StageInput :=
  { rectsModelName := "grid", objZ := 0, sepX := 5, sepY := 5, tolerance := 35 / 100,
    rectsModel := .rects [
      realRect 0 0, realRect 10 0, realRect 20 0, realRect 30 0,
      realRect 0 10, realRect 10 10, realRect 20 10, realRect 30 10,
      realRect 0 20, realRect 10 20, realRect 20 20, realRect 30 20,
      realRect 0 30, realRect 10 30, realRect 20 30, realRect 30 30] }

/-- The regular grid of 9 points with `x, y ∈ {0, 10, 20}`, `sepX = sepY = 5`,
`tolerance = 0.35`. -/
def grid3x3Input : StageInput :=
  { rectsModelName := "grid", objZ := 0, sepX := 5, sepY := 5, tolerance := 35 / 100,
    rectsModel := .rects [
      realRect 0 0, realRect 10 0, realRect 20 0,
      realRect 0 10, realRect 10 10, realRect 20 10,
      realRect 0 20, realRect 10 20, realRect 20 20] }

/-- The mean of the reported `objX` over the records of the `rects` output. -/
def meanObjX (rects : List OutRect) : ℚ := (rects.map fun r => r.objX).sum / rects.length

/-- The mean of the reported `objY` over the records of the `rects` output. -/
def meanObjY (rects : List OutRect) : ℚ := (rects.map fun r => r.objY).sum / rects.length

/-- The adjacent pairs `(prev, cur)` of an ordering. -/
def adjacentPairs (pts : List Point2f) : List (Point2f × Point2f) := pts.zip pts.tail

/-- The order the column-major view is specified to have: every consecutive
pair is ascending in `x`, ties by ascending `y`. -/
def colMajorOrdered (pts : List Point2f) : Prop :=
  ∀ pr ∈ adjacentPairs pts, pr.1.x < pr.2.x ∨ (pr.1.x = pr.2.x ∧ pr.1.y ≤ pr.2.y)

/-- The order the row-major view is specified to have: every consecutive pair
is ascending in `y`, ties by ascending `x`. -/
def rowMajorOrdered (pts : List Point2f) : Prop :=
  ∀ pr ∈ adjacentPairs pts, pr.1.y < pr.2.y ∨ (pr.1.y = pr.2.y ∧ pr.1.x ≤ pr.2.x)

instance (pts : List Point2f) : Decidable (colMajorOrdered pts) :=
  inferInstanceAs (Decidable (∀ pr ∈ adjacentPairs pts,
    pr.1.x < pr.2.x ∨ (pr.1.x = pr.2.x ∧ pr.1.y ≤ pr.2.y)))

instance (pts : List Point2f) : Decidable (rowMajorOrdered pts) :=
  inferInstanceAs (Decidable (∀ pr ∈ adjacentPairs pts,
    pr.1.y < pr.2.y ∨ (pr.1.y = pr.2.y ∧ pr.1.x ≤ pr.2.x)))

/-- The mean of the `x` of a list of object points. -/
def meanX (objectPts : List Point3f) : ℚ :=
  (objectPts.map fun o => o.x).sum / objectPts.length

/-- The mean of the `y` of a list of object points. -/
def meanY (objectPts : List Point3f) : ℚ :=
  (objectPts.map fun o => o.y).sum / objectPts.length

/-- The pairs (image point, object point) handed to `calibrateImage` by a run,
index for index; empty when there is no call. -/
def emittedPairs (run : Option StageResult) : List (Point2f × Point3f) :=
  match run.bind fun res => res.calibrateArgs with
  | some (imagePts, objectPts) => imagePts.zip objectPts
  | none => []

/-- An array of two `rects` of which the second has no numeric `x`. -/
def oneNumericInput : StageInput :=
  { rectsModelName := "grid", objZ := 0, sepX := 5, sepY := 5, tolerance := 35 / 100,
    rectsModel := .rects [realRect 1 1, ⟨.notNumber, .real 2⟩] }

/-- Three points on a line at spacing 1/2: (0,0), (1/2,0), (1,0). -/
def halfStepInput : StageInput :=
  { rectsModelName := "grid", objZ := 0, sepX := 5, sepY := 5, tolerance := 35 / 100,
    rectsModel := .rects [realRect 0 0, realRect (1 / 2) 0, realRect 1 0] }

/-! ## Definitions used by the proofs -/

/-- The final state of the second loop of `identifyColumns` for the median
`m`. -/
def columnScan (m tolerance : ℚ) (pts : List Point2f) (tot1 tot2 : Point2f)
    (count1 count2 : Int) : ScanState :=
  pts.foldl (columnStep (m * minTol m tolerance) (m * maxTol m tolerance)
      (2 * m * minTol m tolerance) (2 * m * maxTol m tolerance))
    ⟨default, default, 0, tot1, tot2, count1, count2⟩

/-- The final state of the second loop of `identifyRows` for the median `m`. -/
def rowScan (m tolerance : ℚ) (pts : List Point2f) (tot1 tot2 : Point2f)
    (count1 count2 : Int) : ScanState :=
  pts.foldl (rowStep (m * minTol m tolerance) (m * maxTol m tolerance)
      (2 * m * minTol m tolerance) (2 * m * maxTol m tolerance))
    ⟨default, default, 0, tot1, tot2, count1, count2⟩

/-- The part of `identifyColumns` after the second loop (lines 219-243). -/
def columnsReport (fsqrt : ℚ → ℚ) (m : ℚ) (s : ScanState) (sepX : Int) (gridX : ℚ) :
    AxisResult :=
  if s.count1 = 0 then ⟨errColumns1, m, s.tot1, s.tot2, s.count1, s.count2, gridX⟩
  else if s.count2 = 0 then ⟨errColumns2, m, s.tot1, s.tot2, s.count1, s.count2, gridX⟩
  else
    ⟨"", m, s.tot1, s.tot2, s.count1, s.count2,
      fsqrt (s.tot2.x / s.count2 / 2 * (s.tot2.x / s.count2 / 2)
        + s.tot2.y / s.count2 / 2 * (s.tot2.y / s.count2 / 2)) / sepX⟩

/-- The part of `identifyRows` after the second loop (lines 145-169). -/
def rowsReport (fsqrt : ℚ → ℚ) (m : ℚ) (s : ScanState) (sepY : Int) (gridY : ℚ) :
    AxisResult :=
  if s.count1 = 0 then ⟨errRows1, m, s.tot1, s.tot2, s.count1, s.count2, gridY⟩
  else if s.count2 = 0 then ⟨errRows2, m, s.tot1, s.tot2, s.count1, s.count2, gridY⟩
  else
    ⟨"", m, s.tot1, s.tot2, s.count1, s.count2,
      fsqrt (s.tot2.x / s.count2 / 2 * (s.tot2.x / s.count2 / 2)
        + s.tot2.y / s.count2 / 2 * (s.tot2.y / s.count2 / 2)) / sepY⟩

/-- The 1-step test on an adjacent pair `(prev, cur)` for the `x` band. -/
def accepts (lo hi : ℚ) (pr : Point2f × Point2f) : Bool :=
  inBand lo hi (toInt (pr.1.x - pr.2.x))

/-- What the loop of the grid assignment maintains: the two vectors have the
same length, and every object point, like the running `ptObj`, has `z = 0`. -/
def GridInv (s : GridState) : Prop :=
  s.imagePts.length = s.objectPts.length ∧ s.ptObj.z = 0 ∧ ∀ o ∈ s.objectPts, o.z = 0

/-- A point with its `x` and `y` exchanged. -/
def swapXY (p : Point2f) : Point2f := ⟨p.y, p.x⟩

/-- A loop state of `identifyRows` with the axes of its points and sums
exchanged. -/
def swapState (s : ScanState) : ScanState :=
  ⟨swapXY s.prevPt1, swapXY s.prevPt2, s.n, swapXY s.tot1, swapXY s.tot2, s.count1, s.count2⟩

/-- A result of `identifyRows` read as a result of `identifyColumns`: the sums
with their axes exchanged and the message of the same level. -/
def rowsAsColumns (r : AxisResult) : AxisResult :=
  ⟨if r.errMsg = errRows1 then errColumns1
    else if r.errMsg = errRows2 then errColumns2 else r.errMsg,
    r.median, swapXY r.tot1, swapXY r.tot2, r.count1, r.count2, r.grid⟩

/-- The bound 2^23 on a coordinate: the integers up to it, and the differences
of two of them, are binary32 values and lie in the range of `int`. -/
def COORD_MAX : Int := 8388608

/-- A point whose two coordinates are integers of magnitude at most 2^23. -/
def IsSmallIntPoint (p : Point2f) : Prop :=
  (∃ a : Int, p.x = a ∧ -COORD_MAX ≤ a ∧ a ≤ COORD_MAX)
  ∧ (∃ b : Int, p.y = b ∧ -COORD_MAX ≤ b ∧ b ≤ COORD_MAX)

/-- The row-major order on points: ascending `y`, ties by ascending `x`. -/
def lexYX (p q : Point2f) : Prop := p.y < q.y ∨ (p.y = q.y ∧ p.x ≤ q.x)

/-- The column-major order on points: ascending `x`, ties by ascending `y`. -/
def lexXY (p q : Point2f) : Prop := p.x < q.x ∨ (p.x = q.x ∧ p.y ≤ q.y)

/-! ## Further inputs, and two tests as the specification words them -/

/-- The regular grid of 9 points with `x, y ∈ {0, 10, 20}` and the
non-integral separations `sepX = sepY = 2.5`. -/
def halfSepInput : StageInput :=
  { rectsModelName := "grid", objZ := 0, sepX := 5 / 2, sepY := 5 / 2, tolerance := 35 / 100,
    rectsModel := .rects [
      realRect 0 0, realRect 10 0, realRect 20 0,
      realRect 0 10, realRect 10 10, realRect 20 10,
      realRect 0 20, realRect 10 20, realRect 20 20] }

/-- The regular grid of 9 points with `x, y ∈ {-10, 0, 10}`, `sepX = sepY = 5`,
`tolerance = 0.35`. -/
def negGridInput : StageInput :=
  { rectsModelName := "grid", objZ := 0, sepX := 5, sepY := 5, tolerance := 35 / 100,
    rectsModel := .rects [
      realRect (-10) (-10), realRect 0 (-10), realRect 10 (-10),
      realRect (-10) 0, realRect 0 0, realRect 10 0,
      realRect (-10) 10, realRect 0 10, realRect 10 10] }

/-- Rounding as the specification words it: `v + (v < 0 ? -0.5 : 0.5)`, then
truncation toward zero. -/
def roundHalfAway (v : ℚ) : Int := toInt (v + if v < 0 then -(1 / 2) else 1 / 2)

/-- The 1-step test as the specification words it, on the exact difference
`prev.x - cur.x` of an adjacent pair. -/
def exactInBand (lo hi : ℚ) (pr : Point2f × Point2f) : Bool :=
  decide (lo ≤ pr.1.x - pr.2.x) && decide (pr.1.x - pr.2.x ≤ hi)

/-- The binary32 quotient that `calcObjPointDiff` rounds on one axis: the
difference of the two coordinates, rounded, divided by the pitch, rounded. -/
def stepQuotient (cur prev sep : ℚ) : ℚ := fl32 (fl32 (cur - prev) / sep)

/-- The half that `calcObjPointDiff` adds to a quotient: `v < 0 ? -0.5 : 0.5`. -/
def signedHalf (v : ℚ) : ℚ := if v < 0 then -(1 / 2) else 1 / 2

/-! ## Shared lemmas -/

theorem dxListFrom_length (p : Point2f) (l : List Point2f) :
    (dxListFrom p l).length = l.length := by
  induction l generalizing p with
  | nil => rfl
  | cons q l ih => simp [dxListFrom, ih]

theorem dyListFrom_length (p : Point2f) (l : List Point2f) :
    (dyListFrom p l).length = l.length := by
  induction l generalizing p with
  | nil => rfl
  | cons q l ih => simp [dyListFrom, ih]

theorem dxListOf_length (pts : List Point2f) : (dxListOf pts).length = pts.length - 1 := by
  cases pts with
  | nil => rfl
  | cons p l => simp [dxListOf, dxListFrom_length]

theorem dyListOf_length (pts : List Point2f) : (dyListOf pts).length = pts.length - 1 := by
  cases pts with
  | nil => rfl
  | cons p l => simp [dyListOf, dyListFrom_length]

/-- The median read is in range exactly when the list of differences is not
empty, and then it is the element at index `length / 2` of every ascending
arrangement of the differences. -/
theorem medianOf_of_sorted (diffs sorted : List ℚ) (hperm : sorted.Perm diffs)
    (hsorted : sorted.Sorted (fun a b => a ≤ b)) (hne : 1 ≤ diffs.length) :
    ∃ m, medianOf diffs = some m ∧ sorted[sorted.length / 2]? = some m := by
  have hs : sorted = diffs.insertionSort (fun a b => a ≤ b) :=
    List.eq_of_perm_of_sorted (hperm.trans (List.perm_insertionSort _ diffs).symm) hsorted
      (List.sorted_insertionSort _ diffs)
  have hlen : sorted.length = diffs.length := hperm.length_eq
  have hidx : sorted.length / 2 < sorted.length := by omega
  refine ⟨sorted[sorted.length / 2], ?_, ?_⟩
  · unfold medianOf
    simp only [← hs]
    exact List.getElem?_eq_getElem hidx
  · exact List.getElem?_eq_getElem hidx

theorem medianOf_some (diffs : List ℚ) (hne : 1 ≤ diffs.length) :
    ∃ m, medianOf diffs = some m := by
  obtain ⟨m, hm, _⟩ := medianOf_of_sorted diffs (diffs.insertionSort (fun a b => a ≤ b))
    (List.perm_insertionSort _ diffs) (List.sorted_insertionSort _ diffs) hne
  exact ⟨m, hm⟩

theorem identifyColumns_eq (fsqrt : ℚ → ℚ) (pts : List Point2f) (tot1 tot2 : Point2f)
    (c1 c2 : Int) (tol : ℚ) (sep : Int) (grid : ℚ) :
    identifyColumns fsqrt pts tot1 tot2 c1 c2 tol sep grid
      = (medianOf (dxListOf pts)).map fun m =>
          columnsReport fsqrt m (columnScan m tol pts tot1 tot2 c1 c2) sep grid := by
  unfold identifyColumns columnsReport columnScan
  congr 1

theorem identifyRows_eq (fsqrt : ℚ → ℚ) (pts : List Point2f) (tot1 tot2 : Point2f)
    (c1 c2 : Int) (tol : ℚ) (sep : Int) (grid : ℚ) :
    identifyRows fsqrt pts tot1 tot2 c1 c2 tol sep grid
      = (medianOf (dyListOf pts)).map fun m =>
          rowsReport fsqrt m (rowScan m tol pts tot1 tot2 c1 c2) sep grid := by
  unfold identifyRows rowsReport rowScan
  congr 1

theorem columnsReport_median (fsqrt : ℚ → ℚ) (m : ℚ) (s : ScanState) (sep : Int)
    (grid : ℚ) : (columnsReport fsqrt m s sep grid).median = m := by
  unfold columnsReport
  split_ifs <;> rfl

theorem rowsReport_median (fsqrt : ℚ → ℚ) (m : ℚ) (s : ScanState) (sep : Int)
    (grid : ℚ) : (rowsReport fsqrt m s sep grid).median = m := by
  unfold rowsReport
  split_ifs <;> rfl

theorem insertLeftward_perm {α : Type} (LT : α → α → Bool) (x : α) (rev : List α) :
    (insertLeftward LT x rev).Perm (x :: rev) := by
  induction rev with
  | nil => exact List.Perm.refl _
  | cons e rev ih =>
    unfold insertLeftward
    split_ifs
    · exact (List.Perm.cons e ih).trans (List.Perm.swap x e rev)
    · exact List.Perm.refl _

theorem foldl_insertLeftward_perm {α : Type} (LT : α → α → Bool) (vec acc : List α) :
    (vec.foldl (fun rev x => insertLeftward LT x rev) acc).Perm (vec ++ acc) := by
  induction vec generalizing acc with
  | nil => exact List.Perm.refl _
  | cons x vec ih =>
    simp only [List.foldl_cons, List.cons_append]
    exact (ih _).trans
      ((List.Perm.append_left vec (insertLeftward_perm LT x acc)).trans
        List.perm_middle)

/-- The sort returns a permutation of its input, whatever the comparator. -/
theorem cvSort_perm {α : Type} (LT : α → α → Bool) (vec : List α) :
    (cvSort LT vec).Perm vec := by
  unfold cvSort
  have h := foldl_insertLeftward_perm LT vec []
  rw [List.append_nil] at h
  exact (List.reverse_perm _).trans h

theorem initializePointMaps_length (pRects : List Rect) :
    (initializePointMaps pRects).1.length = (candidatePoints pRects).length
    ∧ (initializePointMaps pRects).2.length = (candidatePoints pRects).length :=
  ⟨(cvSort_perm _ _).length_eq, (cvSort_perm _ _).length_eq⟩

theorem adjacentPairs_cons_cons (p q : Point2f) (rest : List Point2f) :
    adjacentPairs (p :: q :: rest) = (p, q) :: adjacentPairs (q :: rest) := by
  simp [adjacentPairs]

theorem columnStep_fields (lo1 hi1 lo2 hi2 : ℚ) (s : ScanState) (p : Point2f) :
    (columnStep lo1 hi1 lo2 hi2 s p).prevPt1 = p
    ∧ (columnStep lo1 hi1 lo2 hi2 s p).n = s.n + 1
    ∧ s.count1 ≤ (columnStep lo1 hi1 lo2 hi2 s p).count1
    ∧ s.count2 ≤ (columnStep lo1 hi1 lo2 hi2 s p).count2
    ∧ (0 < s.n → (columnStep lo1 hi1 lo2 hi2 s p).count1
        = s.count1 + if accepts lo1 hi1 (s.prevPt1, p) then 1 else 0)
    ∧ (s.n = 0 → (columnStep lo1 hi1 lo2 hi2 s p).count1 = s.count1) := by
  unfold columnStep accepts
  refine ⟨rfl, rfl, ?_, ?_, ?_, ?_⟩
  · dsimp only; split_ifs <;> simp
  · dsimp only; split_ifs <;> simp
  · intro hn; dsimp only; split_ifs <;> simp
  · intro hn; dsimp only; split_ifs <;> simp <;> omega

theorem rowStep_fields (lo1 hi1 lo2 hi2 : ℚ) (s : ScanState) (p : Point2f) :
    s.count1 ≤ (rowStep lo1 hi1 lo2 hi2 s p).count1
    ∧ s.count2 ≤ (rowStep lo1 hi1 lo2 hi2 s p).count2 := by
  unfold rowStep
  refine ⟨?_, ?_⟩
  · dsimp only; split_ifs <;> simp
  · dsimp only; split_ifs <;> simp

theorem foldl_columnStep_mono (lo1 hi1 lo2 hi2 : ℚ) (l : List Point2f) (s : ScanState) :
    s.count1 ≤ (l.foldl (columnStep lo1 hi1 lo2 hi2) s).count1
    ∧ s.count2 ≤ (l.foldl (columnStep lo1 hi1 lo2 hi2) s).count2 := by
  induction l generalizing s with
  | nil => exact ⟨le_refl _, le_refl _⟩
  | cons p l ih =>
    obtain ⟨_, _, h1, h2, _, _⟩ := columnStep_fields lo1 hi1 lo2 hi2 s p
    obtain ⟨i1, i2⟩ := ih (columnStep lo1 hi1 lo2 hi2 s p)
    exact ⟨le_trans h1 i1, le_trans h2 i2⟩

theorem foldl_rowStep_mono (lo1 hi1 lo2 hi2 : ℚ) (l : List Point2f) (s : ScanState) :
    s.count1 ≤ (l.foldl (rowStep lo1 hi1 lo2 hi2) s).count1
    ∧ s.count2 ≤ (l.foldl (rowStep lo1 hi1 lo2 hi2) s).count2 := by
  induction l generalizing s with
  | nil => exact ⟨le_refl _, le_refl _⟩
  | cons p l ih =>
    obtain ⟨h1, h2⟩ := rowStep_fields lo1 hi1 lo2 hi2 s p
    obtain ⟨i1, i2⟩ := ih (rowStep lo1 hi1 lo2 hi2 s p)
    exact ⟨le_trans h1 i1, le_trans h2 i2⟩

/-- After the first point, the 1-step counter of `identifyColumns` grows by the
number of adjacent pairs that pass the 1-step test. -/
theorem foldl_columnStep_count1 (lo1 hi1 lo2 hi2 : ℚ) (l : List Point2f) (s : ScanState)
    (hn : 0 < s.n) :
    (l.foldl (columnStep lo1 hi1 lo2 hi2) s).count1
      = s.count1 + ((adjacentPairs (s.prevPt1 :: l)).countP (accepts lo1 hi1) : Nat) := by
  induction l generalizing s with
  | nil => simp [adjacentPairs]
  | cons p l ih =>
    obtain ⟨hp, hn1, _, _, hc, _⟩ := columnStep_fields lo1 hi1 lo2 hi2 s p
    rw [List.foldl_cons, ih _ (by omega), hp, hc hn, adjacentPairs_cons_cons,
      List.countP_cons]
    split_ifs
    · simp; omega
    · simp

/-- The 1-step counter at the end of `identifyColumns` is the counter passed in
plus the number of adjacent pairs of `pointsYX` that pass the 1-step test. -/
theorem columnScan_count1 (m tol : ℚ) (pts : List Point2f) (tot1 tot2 : Point2f)
    (c1 c2 : Int) :
    (columnScan m tol pts tot1 tot2 c1 c2).count1
      = c1 + ((adjacentPairs pts).countP
          (accepts (m * minTol m tol) (m * maxTol m tol)) : Nat) := by
  unfold columnScan
  cases pts with
  | nil => simp [adjacentPairs]
  | cons p l =>
    rw [List.foldl_cons]
    obtain ⟨hp, hn1, _, _, _, hc⟩ := columnStep_fields (m * minTol m tol) (m * maxTol m tol)
      (2 * m * minTol m tol) (2 * m * maxTol m tol)
      ⟨default, default, 0, tot1, tot2, c1, c2⟩ p
    rw [foldl_columnStep_count1 _ _ _ _ _ _ (by omega), hp, hc rfl]

theorem Point3f_add_z (a b : Point3f) : (a + b).z = a.z + b.z := rfl

theorem calcObjPointDiff_z (curPt prevPt imgSep : Point2f) :
    (calcObjPointDiff curPt prevPt imgSep).z = 0 := rfl

theorem gridStep_ptImg0 (lo hi : ℚ) (dx : Int) (imgSep : Point2f) (s : GridState)
    (q : Point2f) : (gridStep lo hi dx imgSep s q).ptImg0 = q := rfl

theorem gridStep_inv (lo hi : ℚ) (dx : Int) (imgSep : Point2f) (s : GridState)
    (q : Point2f) (h : GridInv s) : GridInv (gridStep lo hi dx imgSep s q) := by
  obtain ⟨hl, hz, hall⟩ := h
  unfold gridStep GridInv
  dsimp only
  split_ifs
  all_goals
    simp only [List.length_append, List.length_singleton, List.length_nil, List.mem_append,
      List.mem_singleton, Point3f_add_z, calcObjPointDiff_z, hz, add_zero, hl]
  all_goals refine ⟨trivial, trivial, ?_⟩
  all_goals
    intro o ho
    first
    | exact hall o ho
    | (rcases ho with ho | ho
       · exact hall o ho
       · subst ho; simp [Point3f_add_z, calcObjPointDiff_z, hz])
    | (rcases ho with (ho | ho) | ho
       · exact hall o ho
       · subst ho; simp [Point3f_add_z, calcObjPointDiff_z, hz]
       · subst ho; simp [Point3f_add_z, calcObjPointDiff_z, hz])

theorem gridStep_length (lo hi : ℚ) (dx : Int) (imgSep : Point2f) (s : GridState)
    (q : Point2f) :
    s.objectPts.length ≤ (gridStep lo hi dx imgSep s q).objectPts.length
    ∧ (accepts lo hi (s.ptImg0, q) = true →
        0 < (gridStep lo hi dx imgSep s q).objectPts.length) := by
  unfold gridStep accepts
  dsimp only
  refine ⟨?_, ?_⟩
  · split_ifs <;> simp
  · intro h
    rw [if_pos h]
    split_ifs <;> simp

theorem foldl_gridStep_inv (lo hi : ℚ) (dx : Int) (imgSep : Point2f) (l : List Point2f)
    (s : GridState) (h : GridInv s) : GridInv (l.foldl (gridStep lo hi dx imgSep) s) := by
  induction l generalizing s with
  | nil => exact h
  | cons q l ih => exact ih _ (gridStep_inv lo hi dx imgSep s q h)

theorem foldl_gridStep_mono (lo hi : ℚ) (dx : Int) (imgSep : Point2f) (l : List Point2f)
    (s : GridState) :
    s.objectPts.length ≤ (l.foldl (gridStep lo hi dx imgSep) s).objectPts.length := by
  induction l generalizing s with
  | nil => exact le_refl _
  | cons q l ih => exact le_trans (gridStep_length lo hi dx imgSep s q).1 (ih _)

/-- When some adjacent pair passes the 1-step test, the grid assignment ends
with a non-empty `objectPts`. -/
theorem foldl_gridStep_nonempty (lo hi : ℚ) (dx : Int) (imgSep : Point2f)
    (l : List Point2f) (s : GridState)
    (h : 0 < (adjacentPairs (s.ptImg0 :: l)).countP (accepts lo hi)) :
    0 < (l.foldl (gridStep lo hi dx imgSep) s).objectPts.length := by
  induction l generalizing s with
  | nil => simp [adjacentPairs] at h
  | cons q l ih =>
    rw [List.foldl_cons]
    rw [adjacentPairs_cons_cons, List.countP_cons] at h
    by_cases hacc : accepts lo hi (s.ptImg0, q) = true
    · exact lt_of_lt_of_le ((gridStep_length lo hi dx imgSep s q).2 hacc)
        (foldl_gridStep_mono lo hi dx imgSep l _)
    · apply ih
      rw [gridStep_ptImg0]
      simpa [hacc] using h

theorem gridLoop_some (lo hi : ℚ) (dx : Int) (imgSep : Point2f) (pts : List Point2f)
    (s : GridState) (h : gridLoop lo hi dx imgSep pts = some s) :
    GridInv s
    ∧ (0 < (adjacentPairs pts).countP (accepts lo hi) → 0 < s.objectPts.length) := by
  cases pts with
  | nil => simp [gridLoop] at h
  | cons p l =>
    simp only [gridLoop, Option.some.injEq] at h
    subst h
    refine ⟨foldl_gridStep_inv _ _ _ _ _ _ ?_, fun hc => foldl_gridStep_nonempty _ _ _ _ _ _ hc⟩
    exact ⟨rfl, rfl, by simp⟩

theorem joinErrors_eq_empty (a b : String) (h : joinErrors a b = "") : a = "" ∧ b = "" := by
  unfold joinErrors at h
  split_ifs at h with ha hb
  · exact ⟨ha, h⟩
  · exfalso
    have hd : (a ++ "; " ++ b).data = [] := congrArg String.data h
    simp [String.data_append] at hd
  · exact absurd h ha

/-- The two ways a run of `apply_matchGrid` can end: with a non-empty message
and nothing else done, or after both estimations returned an empty message,
through the grid assignment. -/
theorem apply_matchGrid_some (fsqrt : ℚ → ℚ) (inp : StageInput) (res : StageResult)
    (h : apply_matchGrid fsqrt inp = some res) :
    (∃ e, e ≠ "" ∧ res = failed e)
    ∨ ∃ cols rows,
        identifyColumns fsqrt (initializePointMaps (checkInput inp).2).2 default default
          0 0 inp.tolerance (toInt inp.sepX) FLT_MAX = some cols
        ∧ identifyRows fsqrt (initializePointMaps (checkInput inp).2).1 default default
          0 0 inp.tolerance (toInt inp.sepY) FLT_MAX = some rows
        ∧ cols.errMsg = "" ∧ rows.errMsg = ""
        ∧ assignGrid inp (initializePointMaps (checkInput inp).2).2
            ⟨cols.median, rows.median⟩ cols.grid rows.grid = some res := by
  unfold apply_matchGrid at h
  dsimp only at h
  split_ifs at h with hc
  · obtain ⟨cols, hcols, h⟩ := Option.bind_eq_some.mp h
    obtain ⟨rows, hrows, h⟩ := Option.bind_eq_some.mp h
    split_ifs at h with hj
    · obtain ⟨h1, h2⟩ := joinErrors_eq_empty _ _ hj
      exact Or.inr ⟨cols, rows, hcols, hrows, h1, h2, h⟩
    · exact Or.inl ⟨_, hj, (Option.some.inj h).symm⟩
  · exact Or.inl ⟨_, hc, (Option.some.inj h).symm⟩

/-- A run ends with a result unless it reads past the end of a vector: it does
when the first checks fail, and when at least 2 candidate points remain. -/
theorem apply_matchGrid_total (fsqrt : ℚ → ℚ) (inp : StageInput)
    (h : (checkInput inp).1 ≠ "" ∨ 2 ≤ (candidatePoints (checkInput inp).2).length) :
    ∃ res, apply_matchGrid fsqrt inp = some res := by
  by_cases hchk : (checkInput inp).1 = ""
  · have hlen : 2 ≤ (candidatePoints (checkInput inp).2).length := by
      rcases h with h | h
      · exact absurd hchk h
      · exact h
    obtain ⟨mx, hmx⟩ := medianOf_some (dxListOf (initializePointMaps (checkInput inp).2).2)
      (by rw [dxListOf_length, (initializePointMaps_length _).2]; omega)
    obtain ⟨my, hmy⟩ := medianOf_some (dyListOf (initializePointMaps (checkInput inp).2).1)
      (by rw [dyListOf_length, (initializePointMaps_length _).1]; omega)
    unfold apply_matchGrid
    simp only [hchk, if_true, identifyColumns_eq, identifyRows_eq, hmx, hmy, Option.map_some',
      Option.some_bind]
    split_ifs
    · unfold assignGrid
      cases hpts : (initializePointMaps (checkInput inp).2).2 with
      | nil =>
        have := (initializePointMaps_length (checkInput inp).2).2
        rw [hpts] at this
        simp only [List.length_nil] at this
        omega
      | cons p l => exact ⟨_, rfl⟩
    · exact ⟨_, rfl⟩
  · unfold apply_matchGrid
    simp only [hchk, if_false]
    exact ⟨_, rfl⟩

theorem columnsReport_spec (fsqrt : ℚ → ℚ) (m : ℚ) (s : ScanState) (sep : Int) (grid : ℚ)
    (h1 : 0 ≤ s.count1) (h2 : 0 ≤ s.count2) :
    (columnsReport fsqrt m s sep grid).count1 = s.count1
    ∧ (columnsReport fsqrt m s sep grid).count2 = s.count2
    ∧ (columnsReport fsqrt m s sep grid).tot2 = s.tot2
    ∧ ((columnsReport fsqrt m s sep grid).errMsg ≠ "" ↔ s.count1 = 0 ∨ s.count2 = 0)
    ∧ (s.count1 = 0 → (columnsReport fsqrt m s sep grid).errMsg = errColumns1)
    ∧ (0 < s.count1 → s.count2 = 0 → (columnsReport fsqrt m s sep grid).errMsg = errColumns2)
    ∧ ((columnsReport fsqrt m s sep grid).errMsg ≠ "" →
        (columnsReport fsqrt m s sep grid).grid = grid)
    ∧ ((columnsReport fsqrt m s sep grid).errMsg = "" → 0 < s.count1 ∧ 0 < s.count2
        ∧ (columnsReport fsqrt m s sep grid).grid
          = fsqrt (s.tot2.x / s.count2 / 2 * (s.tot2.x / s.count2 / 2)
              + s.tot2.y / s.count2 / 2 * (s.tot2.y / s.count2 / 2)) / sep) := by
  have e1 : errColumns1 ≠ "" := by decide
  have e2 : errColumns2 ≠ "" := by decide
  unfold columnsReport
  split_ifs with c1 c2
  · simp [c1, e1]
  · refine ⟨rfl, rfl, rfl, by simp [c2, e2], fun h => absurd h c1, fun _ _ => rfl,
      fun _ => rfl, fun h => absurd h e2⟩
  · refine ⟨rfl, rfl, rfl, by simp [c1, c2], fun h => absurd h c1, fun _ h => absurd h c2,
      fun h => absurd rfl h, fun _ => ⟨by omega, by omega, rfl⟩⟩

theorem rowsReport_spec (fsqrt : ℚ → ℚ) (m : ℚ) (s : ScanState) (sep : Int) (grid : ℚ)
    (h1 : 0 ≤ s.count1) (h2 : 0 ≤ s.count2) :
    (rowsReport fsqrt m s sep grid).count1 = s.count1
    ∧ (rowsReport fsqrt m s sep grid).count2 = s.count2
    ∧ (rowsReport fsqrt m s sep grid).tot2 = s.tot2
    ∧ ((rowsReport fsqrt m s sep grid).errMsg ≠ "" ↔ s.count1 = 0 ∨ s.count2 = 0)
    ∧ (s.count1 = 0 → (rowsReport fsqrt m s sep grid).errMsg = errRows1)
    ∧ (0 < s.count1 → s.count2 = 0 → (rowsReport fsqrt m s sep grid).errMsg = errRows2)
    ∧ ((rowsReport fsqrt m s sep grid).errMsg ≠ "" →
        (rowsReport fsqrt m s sep grid).grid = grid)
    ∧ ((rowsReport fsqrt m s sep grid).errMsg = "" → 0 < s.count1 ∧ 0 < s.count2
        ∧ (rowsReport fsqrt m s sep grid).grid
          = fsqrt (s.tot2.x / s.count2 / 2 * (s.tot2.x / s.count2 / 2)
              + s.tot2.y / s.count2 / 2 * (s.tot2.y / s.count2 / 2)) / sep) := by
  have e1 : errRows1 ≠ "" := by decide
  have e2 : errRows2 ≠ "" := by decide
  unfold rowsReport
  split_ifs with c1 c2
  · simp [c1, e1]
  · refine ⟨rfl, rfl, rfl, by simp [c2, e2], fun h => absurd h c1, fun _ _ => rfl,
      fun _ => rfl, fun h => absurd h e2⟩
  · refine ⟨rfl, rfl, rfl, by simp [c1, c2], fun h => absurd h c1, fun _ h => absurd h c2,
      fun h => absurd rfl h, fun _ => ⟨by omega, by omega, rfl⟩⟩

theorem assignGrid_some (inp : StageInput) (pts : List Point2f) (median : Point2f)
    (gridX gridY : ℚ) (res : StageResult)
    (h : assignGrid inp pts median gridX gridY = some res) :
    ∃ s, gridLoop (median.x * minTol median.x inp.tolerance)
          (median.x * maxTol median.x inp.tolerance) (if median.x > 0 then 1 else -1)
          ⟨gridX * inp.sepX, gridY * inp.sepY⟩ pts = some s
      ∧ res.errMsg = ""
      ∧ res.centroidDivisor = some s.objectPts.length
      ∧ res.objCentroid = some ⟨s.objCentroid.x / s.objectPts.length,
          s.objCentroid.y / s.objectPts.length, -inp.objZ⟩
      ∧ res.rects = some (outRects ⟨inp.sepX, inp.sepY⟩ inp.objZ
          ⟨s.objCentroid.x / s.objectPts.length, s.objCentroid.y / s.objectPts.length,
            -inp.objZ⟩ s.imagePts s.objectPts)
      ∧ res.calibrateArgs = some (s.imagePts, s.objectPts)
      ∧ res.undistorted = true := by
  unfold assignGrid at h
  obtain ⟨s, hs, hres⟩ := Option.map_eq_some'.mp h
  subst hres
  exact ⟨s, hs, rfl, rfl, rfl, rfl, rfl, rfl⟩

theorem outRects_getElem? (objSep : Point2f) (objZ : ℚ) (c : Point3f)
    (imagePts : List Point2f) (objectPts : List Point3f) (i : Nat)
    (hi : i < objectPts.length) (hi2 : i < imagePts.length) :
    (outRects objSep objZ c imagePts objectPts)[i]?
      = some ⟨imagePts[i].x, imagePts[i].y, objSep.x * (objectPts[i].x - c.x),
          objSep.y * (objectPts[i].y - c.y), objZ⟩ := by
  unfold outRects
  rw [List.getElem?_map, List.getElem?_range hi]
  simp only [Option.map_some', List.getD_eq_getElem?_getD, List.getElem?_eq_getElem hi,
    List.getElem?_eq_getElem hi2, Option.getD_some]

theorem joinErrors_ne_empty (a b : String) (h : a ≠ "" ∨ b ≠ "") : joinErrors a b ≠ "" := by
  intro hj
  obtain ⟨h1, h2⟩ := joinErrors_eq_empty _ _ hj
  rcases h with h | h
  · exact h h1
  · exact h h2

/-- A run in which the first checks pass and one of the two estimations returns
a non-empty message ends with the joined message and nothing else done. -/
theorem apply_matchGrid_axis_error (fsqrt : ℚ → ℚ) (inp : StageInput)
    (cols rows : AxisResult) (hchk : (checkInput inp).1 = "")
    (hcols : identifyColumns fsqrt (initializePointMaps (checkInput inp).2).2 default
      default 0 0 inp.tolerance (toInt inp.sepX) FLT_MAX = some cols)
    (hrows : identifyRows fsqrt (initializePointMaps (checkInput inp).2).1 default
      default 0 0 inp.tolerance (toInt inp.sepY) FLT_MAX = some rows)
    (hne : cols.errMsg ≠ "" ∨ rows.errMsg ≠ "") :
    apply_matchGrid fsqrt inp = some (failed (joinErrors cols.errMsg rows.errMsg)) := by
  have hj := joinErrors_ne_empty _ _ hne
  unfold apply_matchGrid
  simp only [hchk, if_true, hcols, hrows, Option.some_bind, hj, if_false]

theorem columnStep_count2_early (lo1 hi1 lo2 hi2 : ℚ) (s : ScanState) (p : Point2f)
    (hn : s.n ≤ 1) : (columnStep lo1 hi1 lo2 hi2 s p).count2 = s.count2 := by
  unfold columnStep
  dsimp only
  have h1 : ¬ 1 < s.n := by omega
  split_ifs <;> rfl

theorem rowStep_count2_early (lo1 hi1 lo2 hi2 : ℚ) (s : ScanState) (p : Point2f)
    (hn : s.n ≤ 1) : (rowStep lo1 hi1 lo2 hi2 s p).count2 = s.count2 := by
  unfold rowStep
  dsimp only
  have h1 : ¬ 1 < s.n := by omega
  split_ifs <;> rfl

/-- On exactly 2 points the 2-step counter of `identifyColumns` is left at the
value passed in: the 2-step test needs `n > 1`. -/
theorem columnScan_two (m tol : ℚ) (p q : Point2f) (tot1 tot2 : Point2f) (c1 c2 : Int) :
    (columnScan m tol [p, q] tot1 tot2 c1 c2).count2 = c2 := by
  unfold columnScan
  simp only [List.foldl_cons, List.foldl_nil]
  rw [columnStep_count2_early _ _ _ _ _ _ (by
    rw [(columnStep_fields _ _ _ _ _ _).2.1]),
    columnStep_count2_early _ _ _ _ _ _ (by simp)]

/-- On exactly 2 points the 2-step counter of `identifyRows` is left at the
value passed in. -/
theorem rowScan_two (m tol : ℚ) (p q : Point2f) (tot1 tot2 : Point2f) (c1 c2 : Int) :
    (rowScan m tol [p, q] tot1 tot2 c1 c2).count2 = c2 := by
  unfold rowScan
  simp only [List.foldl_cons, List.foldl_nil]
  rw [rowStep_count2_early _ _ _ _ _ _ (by rfl),
    rowStep_count2_early _ _ _ _ _ _ (by simp)]

theorem truncate_intCast (n : Int) : truncate (n : ℚ) = n := by
  unfold truncate
  simp

theorem truncate_of_nonneg (q : ℚ) (h : 0 ≤ q) : truncate q = ⌊q⌋ := by
  unfold truncate
  rw [Rat.floor_def]
  exact Int.tdiv_eq_ediv (Rat.num_nonneg.mpr h) (Int.ofNat_nonneg _)

theorem truncate_neg (q : ℚ) : truncate (-q) = -truncate q := by
  unfold truncate
  rw [Rat.num_neg_eq_neg_num, Rat.den_neg_eq_den, Int.neg_tdiv]

/-- Truncation does not increase the magnitude. -/
theorem abs_truncate_le (q : ℚ) : |(truncate q : ℚ)| ≤ |q| := by
  by_cases h : 0 ≤ q
  · rw [truncate_of_nonneg q h, abs_of_nonneg h,
      abs_of_nonneg (by exact_mod_cast Int.floor_nonneg.mpr h)]
    exact Int.floor_le q
  · have hq : 0 ≤ -q := by linarith
    have hneg : truncate q = -⌊-q⌋ := by
      have := truncate_neg (-q)
      rw [neg_neg] at this
      rw [this, truncate_of_nonneg (-q) hq]
    rw [hneg, abs_of_neg (by linarith : q < 0)]
    push_cast
    rw [abs_neg, abs_of_nonneg (by exact_mod_cast Int.floor_nonneg.mpr hq)]
    exact Int.floor_le (-q)

/-- Within the range of `int` the conversion is the truncation. -/
theorem toInt_of_abs_le (q : ℚ) (h : |q| ≤ 2147483647) : toInt q = truncate q := by
  have h1 := abs_truncate_le q
  have h2 : |(truncate q : ℚ)| ≤ 2147483647 := le_trans h1 h
  rw [abs_le] at h2
  have h3 : (-2147483647 : Int) ≤ truncate q := by exact_mod_cast h2.1
  have h4 : truncate q ≤ 2147483647 := by exact_mod_cast h2.2
  unfold toInt INT_MIN INT_MAX
  rw [if_pos ⟨by omega, h4⟩]

theorem toInt_intCast (n : Int) (h1 : INT_MIN ≤ n) (h2 : n ≤ INT_MAX) :
    toInt (n : ℚ) = n := by
  unfold toInt
  rw [truncate_intCast, if_pos ⟨h1, h2⟩]

/-- Truncation of `v ± 1/2` with the sign of `v` gives an integer within 1/2
of `v`, and of larger magnitude than `v` when it is exactly 1/2 away. -/
theorem truncate_half_away (v : ℚ) :
    |(truncate (v + if v < 0 then -(1 / 2) else 1 / 2) : ℚ) - v| ≤ 1 / 2
    ∧ (|(truncate (v + if v < 0 then -(1 / 2) else 1 / 2) : ℚ) - v| = 1 / 2 →
        |v| < |(truncate (v + if v < 0 then -(1 / 2) else 1 / 2) : ℚ)|) := by
  by_cases hv : v < 0
  · rw [if_pos hv]
    have hneg : v + -(1 / 2) = -(-v + 1 / 2) := by ring
    rw [hneg, truncate_neg, truncate_of_nonneg (-v + 1 / 2) (by linarith)]
    have h1 : ((⌊-v + 1 / 2⌋ : Int) : ℚ) ≤ -v + 1 / 2 := Int.floor_le _
    have h2 : -v + 1 / 2 < (⌊-v + 1 / 2⌋ : Int) + 1 := Int.lt_floor_add_one _
    have h0 : (0 : ℚ) ≤ (⌊-v + 1 / 2⌋ : Int) := by
      have : (0 : Int) ≤ ⌊-v + 1 / 2⌋ := Int.floor_nonneg.mpr (by linarith)
      exact_mod_cast this
    push_cast
    constructor
    · rw [abs_le]; constructor <;> linarith
    · intro he
      rw [abs_of_neg hv, abs_neg, abs_of_nonneg h0]
      rcases abs_eq (by norm_num : (0 : ℚ) ≤ 1 / 2) |>.mp he with h | h
      · linarith
      · linarith
  · rw [if_neg hv]
    have hv0 : 0 ≤ v := not_lt.mp hv
    rw [truncate_of_nonneg (v + 1 / 2) (by linarith)]
    have h1 : ((⌊v + 1 / 2⌋ : Int) : ℚ) ≤ v + 1 / 2 := Int.floor_le _
    have h2 : v + 1 / 2 < (⌊v + 1 / 2⌋ : Int) + 1 := Int.lt_floor_add_one _
    have h0 : (0 : ℚ) ≤ (⌊v + 1 / 2⌋ : Int) := by
      have : (0 : Int) ≤ ⌊v + 1 / 2⌋ := Int.floor_nonneg.mpr (by linarith)
      exact_mod_cast this
    constructor
    · rw [abs_le]; constructor <;> linarith
    · intro he
      rw [abs_of_nonneg hv0, abs_of_nonneg h0]
      rcases abs_eq (by norm_num : (0 : ℚ) ≤ 1 / 2) |>.mp he with h | h
      · linarith
      · linarith

/-- Truncation is within 1 of its argument, on the side of zero. -/
theorem truncate_bounds (q : ℚ) :
    (0 ≤ q → (truncate q : ℚ) ≤ q ∧ q < truncate q + 1)
    ∧ (q ≤ 0 → q ≤ truncate q ∧ (truncate q : ℚ) - 1 < q) := by
  constructor
  · intro h
    rw [truncate_of_nonneg q h]
    exact ⟨Int.floor_le q, Int.lt_floor_add_one q⟩
  · intro h
    have hq : 0 ≤ -q := by linarith
    have hneg : truncate q = -⌊-q⌋ := by
      have := truncate_neg (-q)
      rw [neg_neg] at this
      rw [this, truncate_of_nonneg (-q) hq]
    rw [hneg]
    push_cast
    have h1 := Int.floor_le (-q)
    have h2 := Int.lt_floor_add_one (-q)
    constructor <;> linarith

theorem dyListFrom_swap (p : Point2f) (l : List Point2f) :
    dyListFrom p l = dxListFrom (swapXY p) (l.map swapXY) := by
  induction l generalizing p with
  | nil => rfl
  | cons q l ih => simp only [dyListFrom, List.map_cons, dxListFrom, ih]; rfl

theorem dyListOf_swap (pts : List Point2f) : dyListOf pts = dxListOf (pts.map swapXY) := by
  cases pts with
  | nil => rfl
  | cons p l => exact dyListFrom_swap p l

theorem rowStep_swap (lo1 hi1 lo2 hi2 : ℚ) (s : ScanState) (p : Point2f) :
    swapState (rowStep lo1 hi1 lo2 hi2 s p)
      = columnStep lo1 hi1 lo2 hi2 (swapState s) (swapXY p) := by
  unfold rowStep columnStep swapState
  dsimp only
  have hy1 : (swapXY s.prevPt1).x - (swapXY p).x = s.prevPt1.y - p.y := rfl
  have hy2 : (swapXY s.prevPt2).x - (swapXY p).x = s.prevPt2.y - p.y := rfl
  rw [hy1, hy2]
  split_ifs <;> rfl

theorem foldl_rowStep_swap (lo1 hi1 lo2 hi2 : ℚ) (l : List Point2f) (s : ScanState) :
    swapState (l.foldl (rowStep lo1 hi1 lo2 hi2) s)
      = (l.map swapXY).foldl (columnStep lo1 hi1 lo2 hi2) (swapState s) := by
  induction l generalizing s with
  | nil => rfl
  | cons p l ih => rw [List.foldl_cons, ih, rowStep_swap, List.map_cons, List.foldl_cons]

theorem rowScan_swap (m tol : ℚ) (pts : List Point2f) (tot1 tot2 : Point2f) (c1 c2 : Int) :
    swapState (rowScan m tol pts tot1 tot2 c1 c2)
      = columnScan m tol (pts.map swapXY) (swapXY tot1) (swapXY tot2) c1 c2 := by
  unfold rowScan columnScan
  rw [foldl_rowStep_swap]
  rfl

theorem rowsReport_swap (fsqrt : ℚ → ℚ) (m : ℚ) (s : ScanState) (sep : Int) (grid : ℚ) :
    rowsAsColumns (rowsReport fsqrt m s sep grid)
      = columnsReport fsqrt m (swapState s) sep grid := by
  have e1 : ¬ errRows2 = errRows1 := by decide
  have e2 : ¬ "" = errRows1 := by decide
  have e3 : ¬ "" = errRows2 := by decide
  have hc1 : (swapState s).count1 = s.count1 := rfl
  have hc2 : (swapState s).count2 = s.count2 := rfl
  unfold rowsReport columnsReport
  rw [hc1, hc2]
  by_cases h1 : s.count1 = 0
  · rw [if_pos h1, if_pos h1]
    unfold rowsAsColumns
    simp only [if_true]
    rfl
  · rw [if_neg h1, if_neg h1]
    by_cases h2 : s.count2 = 0
    · rw [if_pos h2, if_pos h2]
      unfold rowsAsColumns
      simp only [if_neg e1, if_true]
      rfl
    · rw [if_neg h2, if_neg h2]
      unfold rowsAsColumns
      simp only [if_neg e2, if_neg e3]
      have hsum : s.tot2.y / s.count2 / 2 * (s.tot2.y / s.count2 / 2)
          + s.tot2.x / s.count2 / 2 * (s.tot2.x / s.count2 / 2)
          = s.tot2.x / s.count2 / 2 * (s.tot2.x / s.count2 / 2)
            + s.tot2.y / s.count2 / 2 * (s.tot2.y / s.count2 / 2) := by ring
      show _ = (⟨"", m, swapXY s.tot1, swapXY s.tot2, s.count1, s.count2,
        fsqrt (s.tot2.y / s.count2 / 2 * (s.tot2.y / s.count2 / 2)
          + s.tot2.x / s.count2 / 2 * (s.tot2.x / s.count2 / 2)) / sep⟩ : AxisResult)
      rw [hsum]

/-- `identifyRows` is `identifyColumns` on the points with their axes
exchanged. -/
theorem identifyRows_swap (fsqrt : ℚ → ℚ) (pts : List Point2f) (tot1 tot2 : Point2f)
    (c1 c2 : Int) (tol : ℚ) (sep : Int) (grid : ℚ) :
    (identifyRows fsqrt pts tot1 tot2 c1 c2 tol sep grid).map rowsAsColumns
      = identifyColumns fsqrt (pts.map swapXY) (swapXY tot1) (swapXY tot2) c1 c2 tol sep
          grid := by
  rw [identifyRows_eq, identifyColumns_eq, dyListOf_swap, Option.map_map]
  congr 1
  funext m
  simp only [Function.comp, rowsReport_swap, rowScan_swap]

/-- How one iteration of the grid assignment changes the number of entries:
none for a rejected pair, two for the first accepted pair, one or two for a
later accepted pair. -/
theorem gridStep_count (lo hi : ℚ) (dx : Int) (imgSep : Point2f) (s : GridState)
    (q : Point2f) (hinv : GridInv s) :
    (accepts lo hi (s.ptImg0, q) = false →
      (gridStep lo hi dx imgSep s q).objectPts.length = s.objectPts.length)
    ∧ (accepts lo hi (s.ptImg0, q) = true → s.objectPts.length = 0 →
      (gridStep lo hi dx imgSep s q).objectPts.length = 2)
    ∧ (accepts lo hi (s.ptImg0, q) = true → 0 < s.objectPts.length →
      s.objectPts.length + 1 ≤ (gridStep lo hi dx imgSep s q).objectPts.length
        ∧ (gridStep lo hi dx imgSep s q).objectPts.length ≤ s.objectPts.length + 2) := by
  have hl := hinv.1
  unfold gridStep accepts
  dsimp only
  refine ⟨?_, ?_, ?_⟩
  · intro h
    rw [if_neg (by simp [h])]
  · intro h h0
    rw [if_pos h, if_pos (by omega)]
    simp [h0]
  · intro h h0
    rw [if_pos h, if_neg (by omega)]
    split_ifs <;> simp

/-- The number of entries at the end of the grid assignment against the number
`k` of adjacent pairs that pass the 1-step test: `k + 1 <= n <= 2 * k` when
the traversal starts empty and some pair passes. -/
theorem foldl_gridStep_count (lo hi : ℚ) (dx : Int) (imgSep : Point2f) (l : List Point2f)
    (s : GridState) (hinv : GridInv s) :
    (0 < s.objectPts.length →
      s.objectPts.length + (adjacentPairs (s.ptImg0 :: l)).countP (accepts lo hi)
          ≤ (l.foldl (gridStep lo hi dx imgSep) s).objectPts.length
        ∧ (l.foldl (gridStep lo hi dx imgSep) s).objectPts.length
          ≤ s.objectPts.length + 2 * (adjacentPairs (s.ptImg0 :: l)).countP (accepts lo hi))
    ∧ (s.objectPts.length = 0 →
      ((adjacentPairs (s.ptImg0 :: l)).countP (accepts lo hi) = 0 →
        (l.foldl (gridStep lo hi dx imgSep) s).objectPts.length = 0)
      ∧ (0 < (adjacentPairs (s.ptImg0 :: l)).countP (accepts lo hi) →
        (adjacentPairs (s.ptImg0 :: l)).countP (accepts lo hi) + 1
            ≤ (l.foldl (gridStep lo hi dx imgSep) s).objectPts.length
          ∧ (l.foldl (gridStep lo hi dx imgSep) s).objectPts.length
            ≤ 2 * (adjacentPairs (s.ptImg0 :: l)).countP (accepts lo hi))) := by
  induction l generalizing s with
  | nil =>
    simp only [adjacentPairs, List.tail_cons, List.zip_nil_right, List.countP_nil,
      List.foldl_nil]
    omega
  | cons q l ih =>
    obtain ⟨g0, g1, g2⟩ := gridStep_count lo hi dx imgSep s q hinv
    obtain ⟨i1, i2⟩ := ih (gridStep lo hi dx imgSep s q) (gridStep_inv lo hi dx imgSep s q hinv)
    rw [gridStep_ptImg0] at i1 i2
    rw [List.foldl_cons, adjacentPairs_cons_cons, List.countP_cons]
    by_cases hacc : accepts lo hi (s.ptImg0, q) = true
    · simp only [hacc, if_true]
      constructor
      · intro h0
        have hb := g2 hacc h0
        have := i1 (by omega)
        omega
      · intro h0
        have hb := g1 hacc h0
        have := i1 (by omega)
        constructor
        · intro hk; omega
        · intro _; omega
    · have hf : accepts lo hi (s.ptImg0, q) = false := by simpa using hacc
      have hb := g0 hf
      simp only [hf, Bool.false_eq_true, if_false, Nat.add_zero]
      rw [hb] at i1 i2
      exact ⟨i1, i2⟩

/-- The entries of a finished grid assignment against the number `k` of
adjacent pairs of the traversed ordering that pass the 1-step test. -/
theorem gridLoop_count (lo hi : ℚ) (dx : Int) (imgSep : Point2f) (pts : List Point2f)
    (s : GridState) (h : gridLoop lo hi dx imgSep pts = some s) :
    s.imagePts.length = s.objectPts.length
    ∧ ((adjacentPairs pts).countP (accepts lo hi) = 0 → s.objectPts.length = 0)
    ∧ (0 < (adjacentPairs pts).countP (accepts lo hi) →
        (adjacentPairs pts).countP (accepts lo hi) + 1 ≤ s.objectPts.length
          ∧ s.objectPts.length ≤ 2 * (adjacentPairs pts).countP (accepts lo hi)) := by
  refine ⟨(gridLoop_some lo hi dx imgSep pts s h).1.1, ?_⟩
  cases pts with
  | nil => simp [gridLoop] at h
  | cons p l =>
    simp only [gridLoop, Option.some.injEq] at h
    subst h
    exact (foldl_gridStep_count lo hi dx imgSep l ⟨p, default, default, [], [], default⟩
      ⟨rfl, rfl, by simp⟩).2 rfl

/-- The 1-step count returned by `identifyColumns`, started at 0, is the number
of adjacent pairs that pass the 1-step test of the band of its median. -/
theorem identifyColumns_count1 (fsqrt : ℚ → ℚ) (pts : List Point2f) (tot1 tot2 : Point2f)
    (c2 : Int) (tol : ℚ) (sep : Int) (grid : ℚ) (cols : AxisResult)
    (h : identifyColumns fsqrt pts tot1 tot2 0 c2 tol sep grid = some cols) :
    cols.count1 = ((adjacentPairs pts).countP
      (accepts (cols.median * minTol cols.median tol)
        (cols.median * maxTol cols.median tol)) : Nat) := by
  rw [identifyColumns_eq] at h
  obtain ⟨m, _, hrep⟩ := Option.map_eq_some'.mp h
  have hmed : cols.median = m := by rw [← hrep]; exact columnsReport_median _ _ _ _ _
  have hcnt : cols.count1 = (columnScan m tol pts tot1 tot2 0 c2).count1 := by
    rw [← hrep]
    unfold columnsReport
    split_ifs <;> rfl
  rw [hcnt, hmed, columnScan_count1]
  simp

/-- One iteration of the grid assignment emits entries exactly when the pair
`(ptImg0, ptImg1)` passes the 1-step test, and keeps the two vectors at the
same length. -/
theorem gridStep_emits (lo hi : ℚ) (dx : Int) (imgSep : Point2f) (s : GridState)
    (q : Point2f) (hl : s.imagePts.length = s.objectPts.length) :
    ((gridStep lo hi dx imgSep s q).objectPts.length ≠ s.objectPts.length ↔
      accepts lo hi (s.ptImg0, q) = true)
    ∧ (gridStep lo hi dx imgSep s q).imagePts.length
        = (gridStep lo hi dx imgSep s q).objectPts.length := by
  unfold gridStep accepts
  dsimp only
  by_cases hacc : inBand lo hi (toInt (s.ptImg0.x - q.x)) = true
  · rw [if_pos hacc]
    split_ifs <;> simp [hacc, hl]
  · rw [if_neg hacc]
    simp [hacc, hl]

/-- A result of `identifyColumns`, started with both counts at 0, that carries
an empty message has positive counts. -/
theorem identifyColumns_success_counts (fsqrt : ℚ → ℚ) (pts : List Point2f)
    (tot1 tot2 : Point2f) (tol : ℚ) (sep : Int) (grid : ℚ) (cols : AxisResult)
    (h : identifyColumns fsqrt pts tot1 tot2 0 0 tol sep grid = some cols)
    (hok : cols.errMsg = "") : 0 < cols.count1 ∧ 0 < cols.count2 := by
  rw [identifyColumns_eq] at h
  obtain ⟨m, _, hrep⟩ := Option.map_eq_some'.mp h
  have hmono := foldl_columnStep_mono (m * minTol m tol) (m * maxTol m tol)
    (2 * m * minTol m tol) (2 * m * maxTol m tol) pts
    ⟨default, default, 0, tot1, tot2, 0, 0⟩
  obtain ⟨a1, a2, _, _, _, _, _, a8⟩ := columnsReport_spec fsqrt m
    (columnScan m tol pts tot1 tot2 0 0) sep grid hmono.1 hmono.2
  rw [hrep] at a1 a2 a8
  rw [a1, a2]
  exact ⟨(a8 hok).1, (a8 hok).2.1⟩

theorem mem_insertLeftward {α : Type} (LT : α → α → Bool) (x b : α) (rev : List α) :
    b ∈ insertLeftward LT x rev ↔ b = x ∨ b ∈ rev := by
  rw [(insertLeftward_perm LT x rev).mem_iff, List.mem_cons]

/-- One insertion keeps the sorted prefix sorted, when on the elements at hand
the comparator decides a total, transitive order `le`. -/
theorem insertLeftward_sorted {α : Type} (LT : α → α → Bool) (le : α → α → Prop)
    (P : α → Prop)
    (hlt : ∀ a b, P a → P b → LT a b = true → le a b)
    (hge : ∀ a b, P a → P b → LT a b = false → le b a)
    (htrans : ∀ a b c, P a → P b → P c → le a b → le b c → le a c)
    (x : α) (rev : List α) (hx : P x) (hrev : ∀ a ∈ rev, P a)
    (hs : rev.Pairwise fun a b => le b a) :
    (insertLeftward LT x rev).Pairwise fun a b => le b a := by
  induction rev with
  | nil => exact List.pairwise_singleton _ _
  | cons e rev ih =>
    have he : P e := hrev e (List.mem_cons_self _ _)
    have hrest : ∀ a ∈ rev, P a := fun a ha => hrev a (List.mem_cons_of_mem _ ha)
    obtain ⟨hhead, htail⟩ := List.pairwise_cons.mp hs
    unfold insertLeftward
    by_cases hc : LT x e = true
    · rw [if_pos hc]
      refine List.pairwise_cons.mpr ⟨?_, ih hrest htail⟩
      intro b hb
      rcases (mem_insertLeftward LT x b rev).mp hb with hb | hb
      · rw [hb]; exact hlt x e hx he hc
      · exact hhead b hb
    · rw [if_neg hc]
      have hex : le e x := hge x e hx he (by simpa using hc)
      refine List.pairwise_cons.mpr ⟨?_, hs⟩
      intro b hb
      rcases List.mem_cons.mp hb with hb | hb
      · rw [hb]; exact hex
      · exact htrans b e x (hrest b hb) he hx (hhead b hb) hex

theorem foldl_insertLeftward_sorted {α : Type} (LT : α → α → Bool) (le : α → α → Prop)
    (P : α → Prop)
    (hlt : ∀ a b, P a → P b → LT a b = true → le a b)
    (hge : ∀ a b, P a → P b → LT a b = false → le b a)
    (htrans : ∀ a b c, P a → P b → P c → le a b → le b c → le a c)
    (vec acc : List α) (hvec : ∀ a ∈ vec, P a) (hacc : ∀ a ∈ acc, P a)
    (hs : acc.Pairwise fun a b => le b a) :
    (vec.foldl (fun rev x => insertLeftward LT x rev) acc).Pairwise fun a b => le b a := by
  induction vec generalizing acc with
  | nil => exact hs
  | cons x vec ih =>
    rw [List.foldl_cons]
    apply ih
    · exact fun a ha => hvec a (List.mem_cons_of_mem _ ha)
    · intro a ha
      rcases (mem_insertLeftward LT x a acc).mp ha with ha | ha
      · rw [ha]; exact hvec x (List.mem_cons_self _ _)
      · exact hacc a ha
    · exact insertLeftward_sorted LT le P hlt hge htrans x acc
        (hvec x (List.mem_cons_self _ _)) hacc hs

/-- The sort returns its input in the order `le`, when on the elements at hand
the comparator decides a total, transitive order `le`. -/
theorem cvSort_sorted {α : Type} (LT : α → α → Bool) (le : α → α → Prop) (P : α → Prop)
    (hlt : ∀ a b, P a → P b → LT a b = true → le a b)
    (hge : ∀ a b, P a → P b → LT a b = false → le b a)
    (htrans : ∀ a b c, P a → P b → P c → le a b → le b c → le a c)
    (vec : List α) (hvec : ∀ a ∈ vec, P a) : (cvSort LT vec).Pairwise le := by
  unfold cvSort
  rw [List.pairwise_reverse]
  exact foldl_insertLeftward_sorted LT le P hlt hge htrans vec [] hvec
    (fun a ha => absurd ha (List.not_mem_nil a)) List.Pairwise.nil

theorem pairwise_adjacentPairs (le : Point2f → Point2f → Prop) (pts : List Point2f)
    (h : pts.Pairwise le) : ∀ pr ∈ adjacentPairs pts, le pr.1 pr.2 := by
  induction pts with
  | nil => intro pr hpr; simp [adjacentPairs] at hpr
  | cons p l ih =>
    cases l with
    | nil => intro pr hpr; simp [adjacentPairs] at hpr
    | cons q rest =>
      obtain ⟨hhead, htail⟩ := List.pairwise_cons.mp h
      intro pr hpr
      rw [adjacentPairs_cons_cons] at hpr
      rcases List.mem_cons.mp hpr with hpr | hpr
      · rw [hpr]; exact hhead q (List.mem_cons_self _ _)
      · exact ih htail pr hpr

/-- On points with integer coordinates of magnitude at most 2^23
`ComparePoint2f(COMPARE_YX)` decides the row-major order. -/
theorem ComparePoint2f_YX_int (a b : Point2f) (ha : IsSmallIntPoint a)
    (hb : IsSmallIntPoint b) :
    (ComparePoint2f .COMPARE_YX a b = true → lexYX a b)
    ∧ (ComparePoint2f .COMPARE_YX a b = false → lexYX b a) := by
  obtain ⟨⟨ax, hax, hax1, hax2⟩, ⟨ay, hay, hay1, hay2⟩⟩ := ha
  obtain ⟨⟨bx, hbx, hbx1, hbx2⟩, ⟨bY, hby, hby1, hby2⟩⟩ := hb
  have hdy : toInt (a.y - b.y) = ay - bY := by
    rw [hay, hby, ← Int.cast_sub]
    exact toInt_intCast _ (by unfold INT_MIN; unfold COORD_MAX at *; omega)
      (by unfold INT_MAX; unfold COORD_MAX at *; omega)
  have hdx : toInt (a.x - b.x) = ax - bx := by
    rw [hax, hbx, ← Int.cast_sub]
    exact toInt_intCast _ (by unfold INT_MIN; unfold COORD_MAX at *; omega)
      (by unfold INT_MAX; unfold COORD_MAX at *; omega)
  unfold ComparePoint2f lexYX
  simp only [hdy, hdx]
  rw [hax, hay, hbx, hby]
  constructor
  · intro h
    rw [decide_eq_true_eq] at h
    norm_cast
    split_ifs at h <;> omega
  · intro h
    rw [decide_eq_false_iff_not] at h
    norm_cast
    split_ifs at h <;> omega

/-- On points with integer coordinates of magnitude at most 2^23
`ComparePoint2f(COMPARE_XY)` decides the column-major order. -/
theorem ComparePoint2f_XY_int (a b : Point2f) (ha : IsSmallIntPoint a)
    (hb : IsSmallIntPoint b) :
    (ComparePoint2f .COMPARE_XY a b = true → lexXY a b)
    ∧ (ComparePoint2f .COMPARE_XY a b = false → lexXY b a) := by
  obtain ⟨⟨ax, hax, hax1, hax2⟩, ⟨ay, hay, hay1, hay2⟩⟩ := ha
  obtain ⟨⟨bx, hbx, hbx1, hbx2⟩, ⟨bY, hby, hby1, hby2⟩⟩ := hb
  have hdy : toInt (a.y - b.y) = ay - bY := by
    rw [hay, hby, ← Int.cast_sub]
    exact toInt_intCast _ (by unfold INT_MIN; unfold COORD_MAX at *; omega)
      (by unfold INT_MAX; unfold COORD_MAX at *; omega)
  have hdx : toInt (a.x - b.x) = ax - bx := by
    rw [hax, hbx, ← Int.cast_sub]
    exact toInt_intCast _ (by unfold INT_MIN; unfold COORD_MAX at *; omega)
      (by unfold INT_MAX; unfold COORD_MAX at *; omega)
  unfold ComparePoint2f lexXY
  simp only [hdy, hdx]
  rw [hax, hay, hbx, hby]
  constructor
  · intro h
    rw [decide_eq_true_eq] at h
    norm_cast
    split_ifs at h <;> omega
  · intro h
    rw [decide_eq_false_iff_not] at h
    norm_cast
    split_ifs at h <;> omega

theorem lexYX_trans (a b c : Point2f) (h1 : lexYX a b) (h2 : lexYX b c) : lexYX a c := by
  unfold lexYX at *
  rcases h1 with h1 | ⟨h1, h1'⟩ <;> rcases h2 with h2 | ⟨h2, h2'⟩
  · exact Or.inl (lt_trans h1 h2)
  · exact Or.inl (h2 ▸ h1)
  · exact Or.inl (h1 ▸ h2)
  · exact Or.inr ⟨h1.trans h2, le_trans h1' h2'⟩

theorem lexXY_trans (a b c : Point2f) (h1 : lexXY a b) (h2 : lexXY b c) : lexXY a c := by
  unfold lexXY at *
  rcases h1 with h1 | ⟨h1, h1'⟩ <;> rcases h2 with h2 | ⟨h2, h2'⟩
  · exact Or.inl (lt_trans h1 h2)
  · exact Or.inl (h2 ▸ h1)
  · exact Or.inl (h1 ▸ h2)
  · exact Or.inr ⟨h1.trans h2, le_trans h1' h2'⟩

/-- For candidate points with integer coordinates of magnitude at most 2^23
the two views of `initializePointMaps` are in column-major and in row-major
order. -/
theorem initializePointMaps_ordered (pRects : List Rect)
    (hint : ∀ p ∈ candidatePoints pRects, IsSmallIntPoint p) :
    colMajorOrdered (initializePointMaps pRects).1
    ∧ rowMajorOrdered (initializePointMaps pRects).2 := by
  constructor
  · exact pairwise_adjacentPairs lexXY _ (cvSort_sorted _ lexXY IsSmallIntPoint
      (fun a b ha hb => (ComparePoint2f_XY_int a b ha hb).1)
      (fun a b ha hb => (ComparePoint2f_XY_int a b ha hb).2)
      (fun a b c _ _ _ => lexXY_trans a b c) _ hint)
  · exact pairwise_adjacentPairs lexYX _ (cvSort_sorted _ lexYX IsSmallIntPoint
      (fun a b ha hb => (ComparePoint2f_YX_int a b ha hb).1)
      (fun a b ha hb => (ComparePoint2f_YX_int a b ha hb).2)
      (fun a b c _ _ _ => lexYX_trans a b c) _ hint)

theorem bitsAux_spec : ∀ (fuel n : Nat), n ≤ fuel → n ≠ 0 →
    2 ^ bitsAux fuel n ≤ n ∧ n < 2 ^ (bitsAux fuel n + 1)
  | 0, n, h, h0 => by omega
  | fuel + 1, n, h, h0 => by
    unfold bitsAux
    by_cases h2 : 2 ≤ n
    · rw [if_pos h2]
      obtain ⟨ih1, ih2⟩ := bitsAux_spec fuel (n / 2) (by omega) (by omega)
      rw [pow_succ] at ih2
      constructor
      · rw [pow_succ]; omega
      · rw [pow_succ, pow_succ]; omega
    · rw [if_neg h2]
      simp
      omega

theorem natLog2_spec (n : Nat) (h : n ≠ 0) :
    2 ^ natLog2 n ≤ n ∧ n < 2 ^ (natLog2 n + 1) :=
  bitsAux_spec n n le_rfl h

theorem ilog2_spec (a : ℚ) (ha : 0 < a) :
    (2 : ℚ) ^ ilog2 a ≤ a ∧ a < (2 : ℚ) ^ (ilog2 a + 1) := by
  have hnum : 0 < a.num := Rat.num_pos.mpr ha
  have hN : a.num.toNat ≠ 0 := by omega
  obtain ⟨n1, n2⟩ := natLog2_spec a.num.toNat hN
  obtain ⟨d1, d2⟩ := natLog2_spec a.den a.den_nz
  have hcast : ((a.num.toNat : Nat) : ℚ) = (a.num : ℚ) := by
    have : ((a.num.toNat : Nat) : Int) = a.num := Int.toNat_of_nonneg hnum.le
    exact_mod_cast this
  have hden : (0 : ℚ) < a.den := by exact_mod_cast a.den_pos
  have ha' : a = (a.num : ℚ) / a.den := (Rat.num_div_den a).symm
  have n1q : (2 : ℚ) ^ natLog2 a.num.toNat ≤ a.num := by
    rw [← hcast]; exact_mod_cast n1
  have n2q : (a.num : ℚ) < (2 : ℚ) ^ (natLog2 a.num.toNat + 1) := by
    rw [← hcast]; exact_mod_cast n2
  have d1q : (2 : ℚ) ^ natLog2 a.den ≤ a.den := by exact_mod_cast d1
  have d2q : (a.den : ℚ) < (2 : ℚ) ^ (natLog2 a.den + 1) := by exact_mod_cast d2
  have hk : ∀ j : Int, (2 : ℚ) ^ (((natLog2 a.num.toNat : Int) - (natLog2 a.den : Int)) + j)
      = (2 : ℚ) ^ natLog2 a.num.toNat / (2 : ℚ) ^ natLog2 a.den * (2 : ℚ) ^ j := by
    intro j
    rw [zpow_add₀ (by norm_num), zpow_sub₀ (by norm_num), zpow_natCast, zpow_natCast]
  have hp1 : (0 : ℚ) < (2 : ℚ) ^ natLog2 a.num.toNat := by positivity
  have hp2 : (0 : ℚ) < (2 : ℚ) ^ natLog2 a.den := by positivity
  unfold ilog2
  simp only
  split_ifs with hc
  · refine ⟨hc, ?_⟩
    rw [hk 1, zpow_one]
    rw [div_mul_eq_mul_div, lt_div_iff₀ hp2]
    calc a * 2 ^ natLog2 a.den ≤ a * a.den := by
          exact mul_le_mul_of_nonneg_left d1q ha.le
      _ = a.num := by rw [Rat.mul_den_eq_num]
      _ < 2 ^ (natLog2 a.num.toNat + 1) := n2q
      _ = 2 ^ natLog2 a.num.toNat * 2 := by rw [pow_succ]
  · constructor
    · rw [sub_eq_add_neg, hk (-1)]
      rw [zpow_neg, zpow_one, div_mul_eq_mul_div, div_le_iff₀ hp2]
      have : a * 2 ^ (natLog2 a.den + 1) ≥ a * a.den :=
        mul_le_mul_of_nonneg_left d2q.le ha.le
      rw [Rat.mul_den_eq_num] at this
      rw [pow_succ] at this
      nlinarith
    · rw [sub_add_cancel]
      exact not_le.mp hc

theorem roundHalfEven_err (n : ℚ) : |(roundHalfEven n : ℚ) - n| ≤ 1 / 2 := by
  have h1 := Int.floor_le n
  have h2 := Int.lt_floor_add_one n
  unfold roundHalfEven
  simp only
  rw [abs_le]
  split_ifs <;> push_cast <;> constructor <;> linarith

/-- The relative error of a rounding to binary32 in the normal range is at
most 2^-24. -/
theorem fl32_err (q : ℚ) (h : (2 : ℚ) ^ (-126 : Int) ≤ |q|) :
    |fl32 q - q| ≤ |q| / 16777216 := by
  have ha : 0 < |q| := lt_of_lt_of_le (by positivity) h
  obtain ⟨l1, l2⟩ := ilog2_spec |q| ha
  have hL : (-126 : Int) ≤ ilog2 |q| := by
    have : (2 : ℚ) ^ (-126 : Int) < (2 : ℚ) ^ (ilog2 |q| + 1) := lt_of_le_of_lt h l2
    have := (zpow_lt_zpow_iff_right₀ (by norm_num : (1 : ℚ) < 2)).mp this
    omega
  unfold fl32
  simp only
  rw [max_eq_left hL]
  have hu : (0 : ℚ) < (2 : ℚ) ^ (ilog2 |q| - 23) := by positivity
  have hr := roundHalfEven_err (q / (2 : ℚ) ^ (ilog2 |q| - 23))
  have heq : (roundHalfEven (q / (2 : ℚ) ^ (ilog2 |q| - 23)) : ℚ) * (2 : ℚ) ^ (ilog2 |q| - 23) - q
      = ((roundHalfEven (q / (2 : ℚ) ^ (ilog2 |q| - 23)) : ℚ) - q / (2 : ℚ) ^ (ilog2 |q| - 23))
        * (2 : ℚ) ^ (ilog2 |q| - 23) := by
    field_simp
  rw [heq, abs_mul, abs_of_pos hu]
  have hu2 : (2 : ℚ) ^ (ilog2 |q| - 23) = (2 : ℚ) ^ ilog2 |q| / 8388608 := by
    rw [zpow_sub₀ (by norm_num)]; norm_num
  rw [hu2]
  have hpos : (0 : ℚ) < (2 : ℚ) ^ ilog2 |q| := by positivity
  calc |(roundHalfEven (q / ((2 : ℚ) ^ ilog2 |q| / 8388608)) : ℚ) - q / ((2 : ℚ) ^ ilog2 |q| / 8388608)|
        * ((2 : ℚ) ^ ilog2 |q| / 8388608)
      ≤ 1 / 2 * ((2 : ℚ) ^ ilog2 |q| / 8388608) := by
        rw [hu2] at hr
        exact mul_le_mul_of_nonneg_right hr (by positivity)
    _ ≤ |q| / 16777216 := by linarith
/-- One axis of `calcObjPointDiff`: the quotient `v`, half added with the sign
of `v`, rounded to binary32 and converted to `int`.  The result is within
`1/2 + (|v| + 1/2) / 2^24` of `v`; when the sum is a binary32 value it is
within 1/2 of `v`, of larger magnitude than `v` when exactly 1/2 away. -/
theorem toInt_fl32_half (v : ℚ) (hv : |v| ≤ 1073741824) :
    |(toInt (fl32 (v + if v < 0 then -(1 / 2) else 1 / 2)) : ℚ) - v|
        ≤ 1 / 2 + (|v| + 1 / 2) / 16777216
    ∧ (fl32 (v + if v < 0 then -(1 / 2) else 1 / 2) = v + (if v < 0 then -(1 / 2) else 1 / 2) →
        |(toInt (fl32 (v + if v < 0 then -(1 / 2) else 1 / 2)) : ℚ) - v| ≤ 1 / 2
        ∧ (|(toInt (fl32 (v + if v < 0 then -(1 / 2) else 1 / 2)) : ℚ) - v| = 1 / 2 →
            |v| < |(toInt (fl32 (v + if v < 0 then -(1 / 2) else 1 / 2)) : ℚ)|)) := by
  have hsmall : (2 : ℚ) ^ (-126 : Int) ≤ 1 / 2 := by
    rw [show (1 / 2 : ℚ) = (2 : ℚ) ^ (-1 : Int) by norm_num]
    exact zpow_le_zpow_right₀ (by norm_num) (by norm_num)
  constructor
  · by_cases hneg : v < 0
    · rw [if_pos hneg]
      have hav : |v| = -v := abs_of_neg hneg
      have hat : |v + -(1 / 2)| = -v + 1 / 2 := by
        rw [abs_of_neg (by linarith)]; ring
      have he := fl32_err (v + -(1 / 2)) (by rw [hat]; linarith)
      rw [hat, abs_le] at he
      rw [hav] at hv
      have hf : fl32 (v + -(1 / 2)) ≤ 0 := by linarith
      have hrange : |fl32 (v + -(1 / 2))| ≤ 2147483647 := by
        rw [abs_of_nonpos hf]; linarith
      rw [toInt_of_abs_le _ hrange, hav]
      obtain ⟨t1, t2⟩ := (truncate_bounds (fl32 (v + -(1 / 2)))).2 hf
      rw [abs_le]
      constructor <;> linarith
    · rw [if_neg hneg]
      have hv0 : 0 ≤ v := not_lt.mp hneg
      have hav : |v| = v := abs_of_nonneg hv0
      have hat : |v + 1 / 2| = v + 1 / 2 := abs_of_nonneg (by linarith)
      have he := fl32_err (v + 1 / 2) (by rw [hat]; linarith)
      rw [hat, abs_le] at he
      rw [hav] at hv
      have hf : 0 ≤ fl32 (v + 1 / 2) := by linarith
      have hrange : |fl32 (v + 1 / 2)| ≤ 2147483647 := by
        rw [abs_of_nonneg hf]; linarith
      rw [toInt_of_abs_le _ hrange, hav]
      obtain ⟨t1, t2⟩ := (truncate_bounds (fl32 (v + 1 / 2))).1 hf
      rw [abs_le]
      constructor <;> linarith
  · intro hex
    have hrange : |v + if v < 0 then -(1 / 2) else 1 / 2| ≤ 2147483647 := by
      have : |v + if v < 0 then -(1 / 2) else 1 / 2| ≤ |v| + 1 / 2 := by
        refine le_trans (abs_add _ _) ?_
        split_ifs <;> simp [abs_of_pos]
      linarith
    rw [hex, toInt_of_abs_le _ hrange]
    exact truncate_half_away v

/-- On points with integer coordinates of magnitude at most 2^23 the two
comparators are the strict row-major and the strict column-major order, so
that every sorting algorithm arranges such points in the same way. -/
theorem ComparePoint2f_strict (a b : Point2f) (ha : IsSmallIntPoint a)
    (hb : IsSmallIntPoint b) :
    (ComparePoint2f .COMPARE_YX a b = true ↔ (a.y < b.y ∨ (a.y = b.y ∧ a.x < b.x)))
    ∧ (ComparePoint2f .COMPARE_XY a b = true ↔ (a.x < b.x ∨ (a.x = b.x ∧ a.y < b.y))) := by
  obtain ⟨⟨ax, hax, hax1, hax2⟩, ⟨ay, hay, hay1, hay2⟩⟩ := ha
  obtain ⟨⟨bx, hbx, hbx1, hbx2⟩, ⟨bY, hby, hby1, hby2⟩⟩ := hb
  have hdy : toInt (a.y - b.y) = ay - bY := by
    rw [hay, hby, ← Int.cast_sub]
    exact toInt_intCast _ (by unfold INT_MIN; unfold COORD_MAX at *; omega)
      (by unfold INT_MAX; unfold COORD_MAX at *; omega)
  have hdx : toInt (a.x - b.x) = ax - bx := by
    rw [hax, hbx, ← Int.cast_sub]
    exact toInt_intCast _ (by unfold INT_MIN; unfold COORD_MAX at *; omega)
      (by unfold INT_MAX; unfold COORD_MAX at *; omega)
  unfold ComparePoint2f
  simp only [hdy, hdx]
  rw [hax, hay, hbx, hby]
  constructor
  · rw [decide_eq_true_eq]
    norm_cast
    split_ifs <;> omega
  · rw [decide_eq_true_eq]
    norm_cast
    split_ifs <;> omega

theorem lexYX_antisymm (a b : Point2f) (h1 : lexYX a b) (h2 : lexYX b a) : a = b := by
  unfold lexYX at *
  cases a with
  | mk ax ay =>
    cases b with
    | mk bx bY =>
      simp only at h1 h2
      rcases h1 with h1 | ⟨h1, h1'⟩ <;> rcases h2 with h2 | ⟨h2, h2'⟩
      · exact absurd h1 (not_lt.mpr h2.le)
      · exact absurd h1 (by rw [h2]; exact lt_irrefl _)
      · exact absurd h2 (by rw [h1]; exact lt_irrefl _)
      · rw [h1, le_antisymm h1' h2']

theorem lexXY_antisymm (a b : Point2f) (h1 : lexXY a b) (h2 : lexXY b a) : a = b := by
  unfold lexXY at *
  cases a with
  | mk ax ay =>
    cases b with
    | mk bx bY =>
      simp only at h1 h2
      rcases h1 with h1 | ⟨h1, h1'⟩ <;> rcases h2 with h2 | ⟨h2, h2'⟩
      · exact absurd h1 (not_lt.mpr h2.le)
      · exact absurd h1 (by rw [h2]; exact lt_irrefl _)
      · exact absurd h2 (by rw [h1]; exact lt_irrefl _)
      · rw [h1, le_antisymm h1' h2']

/-- For candidate points with integer coordinates of magnitude at most 2^23,
each view of `initializePointMaps` is the only arrangement of the candidate
points in its order: `pointsXY` the only column-major one and `pointsYX` the
only row-major one. -/
theorem initializePointMaps_unique (pRects : List Rect)
    (hint : ∀ p ∈ candidatePoints pRects, IsSmallIntPoint p) :
    (∀ l : List Point2f, l.Perm (candidatePoints pRects) → l.Pairwise lexXY →
      l = (initializePointMaps pRects).1)
    ∧ (∀ l : List Point2f, l.Perm (candidatePoints pRects) → l.Pairwise lexYX →
      l = (initializePointMaps pRects).2) := by
  constructor
  · intro l hperm hsorted
    haveI : IsAntisymm Point2f lexXY := ⟨lexXY_antisymm⟩
    have h2 : ((initializePointMaps pRects).1).Pairwise lexXY :=
      cvSort_sorted _ lexXY IsSmallIntPoint
        (fun a b ha hb => (ComparePoint2f_XY_int a b ha hb).1)
        (fun a b ha hb => (ComparePoint2f_XY_int a b ha hb).2)
        (fun a b c _ _ _ => lexXY_trans a b c) _ hint
    exact List.eq_of_perm_of_sorted (hperm.trans (cvSort_perm _ _).symm) hsorted h2
  · intro l hperm hsorted
    haveI : IsAntisymm Point2f lexYX := ⟨lexYX_antisymm⟩
    have h2 : ((initializePointMaps pRects).2).Pairwise lexYX :=
      cvSort_sorted _ lexYX IsSmallIntPoint
        (fun a b ha hb => (ComparePoint2f_YX_int a b ha hb).1)
        (fun a b ha hb => (ComparePoint2f_YX_int a b ha hb).2)
        (fun a b c _ _ _ => lexYX_trans a b c) _ hint
    exact List.eq_of_perm_of_sorted (hperm.trans (cvSort_perm _ _).symm) hsorted h2

/-! ## C1: the 2 x 3 scenario -/

/-- C1, as stated, fails: on the 2 x 3 scenario it is not the case that both
estimations return an empty message with `gridX = 2`, `gridY = 1.5` and that 6
correspondences with centroid (0,0) are emitted. -/
theorem scenario_claim_fails :
    ¬ ((identifyColumns sqrtQ (initializePointMaps
            [realRect 0 0, realRect 8 0, realRect 16 0, realRect 0 6, realRect 8 6,
              realRect 16 6]).2 default default 0 0 (35 / 100) 4 FLT_MAX).map
          (fun r => (r.errMsg, r.grid)) = some ("", 2)
        ∧ (identifyRows sqrtQ (initializePointMaps
            [realRect 0 0, realRect 8 0, realRect 16 0, realRect 0 6, realRect 8 6,
              realRect 16 6]).1 default default 0 0 (35 / 100) 4 FLT_MAX).map
          (fun r => (r.errMsg, r.grid)) = some ("", 3 / 2)
        ∧ ((apply_matchGrid sqrtQ scenarioInput).bind fun res => res.rects).map
          (fun rs => (rs.length, meanObjX rs, meanObjY rs)) = some (6, 0, 0)) := by
  decide!

/-- C1, amended: on the 2 x 3 scenario `identifyColumns` returns an empty
message with median -8, 4 one-step and 2 two-step matches and `gridX = 2`;
`identifyRows` returns the level-2 message with median -6, 3 one-step and no
two-step match and leaves `gridY` at the value passed in; `apply_matchGrid`
ends with that message, writes no `rects`, and calls neither `calibrateImage`
nor `undistort`. -/
theorem scenario_columns_ok_rows_fail :
    identifyColumns sqrtQ (initializePointMaps
        [realRect 0 0, realRect 8 0, realRect 16 0, realRect 0 6, realRect 8 6,
          realRect 16 6]).2 default default 0 0 (35 / 100) 4 FLT_MAX
      = some ⟨"", -8, ⟨-32, 0⟩, ⟨-32, 0⟩, 4, 2, 2⟩
    ∧ identifyRows sqrtQ (initializePointMaps
        [realRect 0 0, realRect 8 0, realRect 16 0, realRect 0 6, realRect 8 6,
          realRect 16 6]).1 default default 0 0 (35 / 100) 4 FLT_MAX
      = some ⟨errRows2, -6, ⟨0, -18⟩, ⟨0, 0⟩, 3, 0, FLT_MAX⟩
    ∧ apply_matchGrid sqrtQ scenarioInput = some (failed errRows2)
    ∧ (failed errRows2).errMsg ≠ ""
    ∧ (failed errRows2).rects = none
    ∧ (failed errRows2).calibrateArgs = none
    ∧ (failed errRows2).undistorted = false := by
  decide!

/-! ## C2: the regular 16-point grid -/

/-- C2 at the regular 16-point grid: the run hands (0,0) -> (0,0,0) and
(10,0) -> (-1,0,0) to calibration (and (10,0) -> (0,0,0) as well), so no
integer translation `(a, b)` gives `o.x = p.x/10 + a`, `o.y = p.y/10 + b` for
all emitted pairs. -/
theorem regular_grid_no_translation :
    ((⟨0, 0⟩, ⟨0, 0, 0⟩) : Point2f × Point3f)
        ∈ emittedPairs (apply_matchGrid sqrtQ regularGridInput)
    ∧ ((⟨10, 0⟩, ⟨-1, 0, 0⟩) : Point2f × Point3f)
        ∈ emittedPairs (apply_matchGrid sqrtQ regularGridInput)
    ∧ ((⟨10, 0⟩, ⟨0, 0, 0⟩) : Point2f × Point3f)
        ∈ emittedPairs (apply_matchGrid sqrtQ regularGridInput)
    ∧ (emittedPairs (apply_matchGrid sqrtQ regularGridInput)).length = 17
    ∧ ¬ ∃ a b : Int, ∀ pr ∈ emittedPairs (apply_matchGrid sqrtQ regularGridInput),
        pr.2.x = pr.1.x / 10 + a ∧ pr.2.y = pr.1.y / 10 + b := by
  have h1 : ((⟨0, 0⟩, ⟨0, 0, 0⟩) : Point2f × Point3f)
      ∈ emittedPairs (apply_matchGrid sqrtQ regularGridInput) := by decide!
  have h2 : ((⟨10, 0⟩, ⟨-1, 0, 0⟩) : Point2f × Point3f)
      ∈ emittedPairs (apply_matchGrid sqrtQ regularGridInput) := by decide!
  refine ⟨h1, h2, by decide!, by decide!, ?_⟩
  rintro ⟨a, b, h⟩
  have e1 := (h _ h1).1
  have e2 := (h _ h2).1
  simp only at e1 e2
  have e3 : (a : ℚ) = 0 := by linarith
  have e4 : (a : ℚ) = -2 := by linarith
  linarith

/-! ## C3: the centroid -/

/-- C3 at the regular 9-point grid: 10 records are reported, the centroid used
is (1/10, 9/10) although the emitted object points have mean (0, 9/10), and
the mean of the reported `objX` is -1/2, not 0. -/
theorem grid3x3_mean_not_zero :
    ((apply_matchGrid sqrtQ grid3x3Input).bind fun res => res.rects).map
        (fun rs => (rs.length, meanObjX rs, meanObjY rs)) = some (10, -1 / 2, 0)
    ∧ ((apply_matchGrid sqrtQ grid3x3Input).bind fun res => res.objCentroid)
        = some ⟨1 / 10, 9 / 10, 0⟩
    ∧ ((apply_matchGrid sqrtQ grid3x3Input).bind fun res => res.calibrateArgs).map
        (fun args => (meanX args.2, meanY args.2)) = some (0, 9 / 10) := by
  decide!

/-! ## C4: the two sorted views -/

/-- C4 at two points whose `x` differ by 1/2 (and at two points whose `y`
differ by 1/2): the view sorted with `COMPARE_XY` is [(1/2,0), (0,1)], which is
not ascending in `x`, and the view sorted with `COMPARE_YX` is
[(0,1/2), (1,0)], which is not ascending in `y`. -/
theorem sort_misorders_close_points :
    (initializePointMaps [realRect (1 / 2) 0, realRect 0 1]).1 = [⟨1 / 2, 0⟩, ⟨0, 1⟩]
    ∧ ¬ colMajorOrdered (initializePointMaps [realRect (1 / 2) 0, realRect 0 1]).1
    ∧ (initializePointMaps [realRect 0 (1 / 2), realRect 1 0]).2 = [⟨0, 1 / 2⟩, ⟨1, 0⟩]
    ∧ ¬ rowMajorOrdered (initializePointMaps [realRect 0 (1 / 2), realRect 1 0]).2 := by
  decide!

/-! ## C5: the median -/

/-- C5, as stated, fails: for the points with x = 10, 9, 7, 4, 0 the
differences are [1,2,3,4] and the median of `identifyColumns` is not 2. -/
theorem median_even_not_lower :
    dxListOf [⟨10, 0⟩, ⟨9, 0⟩, ⟨7, 0⟩, ⟨4, 0⟩, ⟨0, 0⟩] = [1, 2, 3, 4]
    ∧ (identifyColumns sqrtQ [⟨10, 0⟩, ⟨9, 0⟩, ⟨7, 0⟩, ⟨4, 0⟩, ⟨0, 0⟩] default default 0 0
        (35 / 100) 5 FLT_MAX).map (fun r => r.median) ≠ some 2 := by
  decide!

/-- C5, amended: for at least 2 points, so n >= 1 differences,
`identifyColumns` and `identifyRows` return a result whose median is the
element at index n/2 (integer division) of the differences sorted ascending:
the exact middle element, index (n-1)/2, when n is odd and the upper-middle
element, index (n-1)/2 + 1, when n is even. -/
theorem median_is_element_at_half (fsqrt : ℚ → ℚ) (pts : List Point2f)
    (tot1 tot2 : Point2f) (c1 c2 : Int) (tol : ℚ) (sep : Int) (grid : ℚ)
    (hpts : 2 ≤ pts.length) :
    (∀ sorted : List ℚ, sorted.Perm (dxListOf pts) → sorted.Sorted (fun a b => a ≤ b) →
      ∃ r, identifyColumns fsqrt pts tot1 tot2 c1 c2 tol sep grid = some r
        ∧ sorted[sorted.length / 2]? = some r.median)
    ∧ (∀ sorted : List ℚ, sorted.Perm (dyListOf pts) → sorted.Sorted (fun a b => a ≤ b) →
      ∃ r, identifyRows fsqrt pts tot1 tot2 c1 c2 tol sep grid = some r
        ∧ sorted[sorted.length / 2]? = some r.median)
    ∧ (dxListOf pts).length = pts.length - 1
    ∧ (dyListOf pts).length = pts.length - 1
    ∧ ((pts.length - 1) % 2 = 1 → (pts.length - 1) / 2 = (pts.length - 1 - 1) / 2)
    ∧ ((pts.length - 1) % 2 = 0 → (pts.length - 1) / 2 = (pts.length - 1 - 1) / 2 + 1) := by
  have hx : 1 ≤ (dxListOf pts).length := by rw [dxListOf_length]; omega
  have hy : 1 ≤ (dyListOf pts).length := by rw [dyListOf_length]; omega
  refine ⟨?_, ?_, dxListOf_length pts, dyListOf_length pts, ?_, ?_⟩
  · intro sorted hperm hsorted
    obtain ⟨m, hm, hidx⟩ := medianOf_of_sorted _ sorted hperm hsorted hx
    refine ⟨columnsReport fsqrt m (columnScan m tol pts tot1 tot2 c1 c2) sep grid, ?_, ?_⟩
    · rw [identifyColumns_eq, hm]; rfl
    · rw [columnsReport_median]; exact hidx
  · intro sorted hperm hsorted
    obtain ⟨m, hm, hidx⟩ := medianOf_of_sorted _ sorted hperm hsorted hy
    refine ⟨rowsReport fsqrt m (rowScan m tol pts tot1 tot2 c1 c2) sep grid, ?_, ?_⟩
    · rw [identifyRows_eq, hm]; rfl
    · rw [rowsReport_median]; exact hidx
  · omega
  · omega

/-- A witness of C5 (amended): the points with x = 10, 9, 7, 4, 0, whose
sorted differences are [1,2,3,4]. -/
theorem median_is_element_at_half_witness :
    ∃ r, identifyColumns sqrtQ [⟨10, 0⟩, ⟨9, 0⟩, ⟨7, 0⟩, ⟨4, 0⟩, ⟨0, 0⟩] default default 0 0
        (35 / 100) 5 FLT_MAX = some r
      ∧ ([1, 2, 3, 4] : List ℚ)[([1, 2, 3, 4] : List ℚ).length / 2]? = some r.median :=
  (median_is_element_at_half sqrtQ [⟨10, 0⟩, ⟨9, 0⟩, ⟨7, 0⟩, ⟨4, 0⟩, ⟨0, 0⟩] default default
    0 0 (35 / 100) 5 FLT_MAX (by decide)).1 [1, 2, 3, 4] (by decide!) (by decide!)

/-! ## C6: the tolerance band -/

/-- C6: for every median `m` and tolerance `t >= 0` the multipliers are
`1 - t` / `1 + t` when `m < 0` and `1 + t` / `1 - t` otherwise, and the 1-step
band `[m * minTol, m * maxTol]` contains `m`; for `m = -2`, `t = 0.35` the
multipliers are 0.65 and 1.35 and the band is [-2.7, -1.3], and for `m = 2`
the band is [1.3, 2.7]. -/
theorem band_contains_median (m t : ℚ) (ht : 0 ≤ t) :
    (m < 0 → maxTol m t = 1 - t ∧ minTol m t = 1 + t)
    ∧ (¬ m < 0 → maxTol m t = 1 + t ∧ minTol m t = 1 - t)
    ∧ m * minTol m t ≤ m
    ∧ m ≤ m * maxTol m t
    ∧ maxTol (-2) (35 / 100) = 65 / 100
    ∧ minTol (-2) (35 / 100) = 135 / 100
    ∧ -2 * minTol (-2) (35 / 100) = -27 / 10
    ∧ -2 * maxTol (-2) (35 / 100) = -13 / 10
    ∧ 2 * minTol 2 (35 / 100) = 13 / 10
    ∧ 2 * maxTol 2 (35 / 100) = 27 / 10 := by
  refine ⟨?_, ?_, ?_, ?_, ?_, ?_, ?_, ?_, ?_, ?_⟩
  · intro h; simp [maxTol, minTol, h]
  · intro h; simp [maxTol, minTol, h]
  · unfold minTol
    split_ifs with h
    · nlinarith
    · nlinarith
  · unfold maxTol
    split_ifs with h
    · nlinarith
    · nlinarith
  all_goals norm_num [maxTol, minTol]

/-- A witness of C6 at `m = -2`, `t = 0.35`. -/
theorem band_contains_median_witness :
    (0 : ℚ) ≤ 35 / 100 ∧ -2 * minTol (-2) (35 / 100) ≤ (-2 : ℚ)
      ∧ (-2 : ℚ) ≤ -2 * maxTol (-2) (35 / 100) :=
  ⟨by norm_num, (band_contains_median (-2) (35 / 100) (by norm_num)).2.2.1,
    (band_contains_median (-2) (35 / 100) (by norm_num)).2.2.2.1⟩

/-! ## C7: error reporting of the two estimations -/

/-- C7: called on at least 2 points with the counts initialised to 0,
`identifyColumns` (and `identifyRows`) returns a result whose message is
non-empty if and only if its 1-step count is 0 or its 2-step count is 0: the
level-1 message when the 1-step count is 0, the level-2 message when the
1-step count is positive and the 2-step count is 0.  On every error the grid
scale is the value passed in by the caller; it is written, as
`sqrt(avg2x^2 + avg2y^2) / sep`, only when the message is empty, and then both
counts are positive. -/
theorem error_iff_count_zero (fsqrt : ℚ → ℚ) (pts : List Point2f) (tot1 tot2 : Point2f)
    (tol : ℚ) (sep : Int) (grid : ℚ) (hpts : 2 ≤ pts.length) :
    (∃ r, identifyColumns fsqrt pts tot1 tot2 0 0 tol sep grid = some r
      ∧ 0 ≤ r.count1 ∧ 0 ≤ r.count2
      ∧ (r.errMsg ≠ "" ↔ r.count1 = 0 ∨ r.count2 = 0)
      ∧ (r.count1 = 0 → r.errMsg = errColumns1)
      ∧ (0 < r.count1 → r.count2 = 0 → r.errMsg = errColumns2)
      ∧ (r.errMsg ≠ "" → r.grid = grid)
      ∧ (r.errMsg = "" → 0 < r.count1 ∧ 0 < r.count2
          ∧ r.grid = fsqrt (r.tot2.x / r.count2 / 2 * (r.tot2.x / r.count2 / 2)
              + r.tot2.y / r.count2 / 2 * (r.tot2.y / r.count2 / 2)) / sep))
    ∧ (∃ r, identifyRows fsqrt pts tot1 tot2 0 0 tol sep grid = some r
      ∧ 0 ≤ r.count1 ∧ 0 ≤ r.count2
      ∧ (r.errMsg ≠ "" ↔ r.count1 = 0 ∨ r.count2 = 0)
      ∧ (r.count1 = 0 → r.errMsg = errRows1)
      ∧ (0 < r.count1 → r.count2 = 0 → r.errMsg = errRows2)
      ∧ (r.errMsg ≠ "" → r.grid = grid)
      ∧ (r.errMsg = "" → 0 < r.count1 ∧ 0 < r.count2
          ∧ r.grid = fsqrt (r.tot2.x / r.count2 / 2 * (r.tot2.x / r.count2 / 2)
              + r.tot2.y / r.count2 / 2 * (r.tot2.y / r.count2 / 2)) / sep)) := by
  constructor
  · obtain ⟨m, hm⟩ := medianOf_some (dxListOf pts) (by rw [dxListOf_length]; omega)
    have hmono := foldl_columnStep_mono (m * minTol m tol) (m * maxTol m tol)
      (2 * m * minTol m tol) (2 * m * maxTol m tol) pts
      ⟨default, default, 0, tot1, tot2, 0, 0⟩
    have h1 : 0 ≤ (columnScan m tol pts tot1 tot2 0 0).count1 := hmono.1
    have h2 : 0 ≤ (columnScan m tol pts tot1 tot2 0 0).count2 := hmono.2
    obtain ⟨a1, a2, a3, a4, a5, a6, a7, a8⟩ :=
      columnsReport_spec fsqrt m (columnScan m tol pts tot1 tot2 0 0) sep grid h1 h2
    refine ⟨columnsReport fsqrt m (columnScan m tol pts tot1 tot2 0 0) sep grid, ?_, ?_⟩
    · rw [identifyColumns_eq, hm]; rfl
    · rw [a1, a2, a3]
      exact ⟨h1, h2, a4, a5, a6, a7, a8⟩
  · obtain ⟨m, hm⟩ := medianOf_some (dyListOf pts) (by rw [dyListOf_length]; omega)
    have hmono := foldl_rowStep_mono (m * minTol m tol) (m * maxTol m tol)
      (2 * m * minTol m tol) (2 * m * maxTol m tol) pts
      ⟨default, default, 0, tot1, tot2, 0, 0⟩
    have h1 : 0 ≤ (rowScan m tol pts tot1 tot2 0 0).count1 := hmono.1
    have h2 : 0 ≤ (rowScan m tol pts tot1 tot2 0 0).count2 := hmono.2
    obtain ⟨a1, a2, a3, a4, a5, a6, a7, a8⟩ :=
      rowsReport_spec fsqrt m (rowScan m tol pts tot1 tot2 0 0) sep grid h1 h2
    refine ⟨rowsReport fsqrt m (rowScan m tol pts tot1 tot2 0 0) sep grid, ?_, ?_⟩
    · rw [identifyRows_eq, hm]; rfl
    · rw [a1, a2, a3]
      exact ⟨h1, h2, a4, a5, a6, a7, a8⟩

/-- A witness of C7: the row-major view of the 2 x 3 scenario, on which
`identifyColumns` succeeds, and its column-major view, on which `identifyRows`
returns the level-2 message. -/
theorem error_iff_count_zero_witness :
    (∃ r, identifyColumns sqrtQ [⟨0, 0⟩, ⟨8, 0⟩, ⟨16, 0⟩, ⟨0, 6⟩, ⟨8, 6⟩, ⟨16, 6⟩]
        default default 0 0 (35 / 100) 4 FLT_MAX = some r
      ∧ (r.errMsg ≠ "" ↔ r.count1 = 0 ∨ r.count2 = 0))
    ∧ (∃ r, identifyRows sqrtQ [⟨0, 0⟩, ⟨0, 6⟩, ⟨8, 0⟩, ⟨8, 6⟩, ⟨16, 0⟩, ⟨16, 6⟩]
        default default 0 0 (35 / 100) 4 FLT_MAX = some r
      ∧ (r.count1 = 0 → r.errMsg = errRows1)
      ∧ (0 < r.count1 → r.count2 = 0 → r.errMsg = errRows2)) := by
  obtain ⟨r, hr, _, _, h, _⟩ := (error_iff_count_zero sqrtQ
    [⟨0, 0⟩, ⟨8, 0⟩, ⟨16, 0⟩, ⟨0, 6⟩, ⟨8, 6⟩, ⟨16, 6⟩] default default (35 / 100) 4 FLT_MAX
    (by decide)).1
  obtain ⟨r2, hr2, _, _, _, h1, h2, _⟩ := (error_iff_count_zero sqrtQ
    [⟨0, 0⟩, ⟨0, 6⟩, ⟨8, 0⟩, ⟨8, 6⟩, ⟨16, 0⟩, ⟨16, 6⟩] default default (35 / 100) 4 FLT_MAX
    (by decide)).2
  exact ⟨⟨r, hr, h⟩, ⟨r2, hr2, h1, h2⟩⟩

/-! ## C8: the centroid division -/

/-- C8: whenever a run evaluates the centroid division, its divisor
`objectPts.size()` is positive, and the vector handed to calibration is not
empty; and if every consecutive pair of the traversed ordering `pointsYX`
fails the 1-step x-band test (the band of the median `m` of the x
differences), the run ends with a non-empty message, evaluates no centroid
division and calls neither `calibrateImage` nor `undistort`.  A run ends
with a result whenever the first checks fail or at least 2 candidate points
remain. -/
theorem centroid_division_guarded (fsqrt : ℚ → ℚ) (inp : StageInput) :
    (∀ res, apply_matchGrid fsqrt inp = some res →
      (∀ n, res.centroidDivisor = some n → 0 < n)
      ∧ (∀ args, res.calibrateArgs = some args →
          res.centroidDivisor = some args.2.length ∧ 0 < args.2.length))
    ∧ (∀ m, medianOf (dxListOf (initializePointMaps (checkInput inp).2).2) = some m →
        (∀ pr ∈ adjacentPairs (initializePointMaps (checkInput inp).2).2,
          inBand (m * minTol m inp.tolerance) (m * maxTol m inp.tolerance)
            (toInt (pr.1.x - pr.2.x)) = false) →
        ∃ res, apply_matchGrid fsqrt inp = some res ∧ res.errMsg ≠ ""
          ∧ res.centroidDivisor = none ∧ res.calibrateArgs = none
          ∧ res.undistorted = false)
    ∧ ((checkInput inp).1 ≠ "" ∨ 2 ≤ (candidatePoints (checkInput inp).2).length →
        ∃ res, apply_matchGrid fsqrt inp = some res) := by
  refine ⟨?_, ?_, apply_matchGrid_total fsqrt inp⟩
  · intro res hres
    have key : ∀ n, res.centroidDivisor = some n → 0 < n := by
      intro n hn
      rcases apply_matchGrid_some fsqrt inp res hres with ⟨e, _, he⟩ | ⟨cols, rows, hc, _,
        hce, _, hg⟩
      · rw [he] at hn; exact absurd hn (by simp [failed])
      · obtain ⟨s, hs, _, hdiv, _⟩ := assignGrid_some _ _ _ _ _ _ hg
        rw [hdiv] at hn
        have hn2 : s.objectPts.length = n := Option.some.inj hn
        rw [← hn2]
        apply (gridLoop_some _ _ _ _ _ _ hs).2
        rw [identifyColumns_eq] at hc
        obtain ⟨m, hm, hrep⟩ := Option.map_eq_some'.mp hc
        have hmed : cols.median = m := by rw [← hrep]; exact columnsReport_median _ _ _ _ _
        have hcnt := columnScan_count1 m inp.tolerance
          (initializePointMaps (checkInput inp).2).2 default default 0 0
        have hmono := foldl_columnStep_mono (m * minTol m inp.tolerance)
          (m * maxTol m inp.tolerance) (2 * m * minTol m inp.tolerance)
          (2 * m * maxTol m inp.tolerance) (initializePointMaps (checkInput inp).2).2
          ⟨default, default, 0, default, default, 0, 0⟩
        obtain ⟨_, _, _, _, _, _, _, a8⟩ := columnsReport_spec fsqrt m
          (columnScan m inp.tolerance (initializePointMaps (checkInput inp).2).2
            default default 0 0) (toInt inp.sepX) FLT_MAX hmono.1 hmono.2
        rw [hrep] at a8
        have hpos := (a8 hce).1
        rw [hcnt] at hpos
        show 0 < List.countP (accepts (cols.median * minTol cols.median inp.tolerance)
          (cols.median * maxTol cols.median inp.tolerance)) _
        rw [hmed]
        omega
    refine ⟨key, ?_⟩
    intro args hargs
    rcases apply_matchGrid_some fsqrt inp res hres with ⟨e, _, he⟩ | ⟨cols, rows, _, _, _,
      _, hg⟩
    · rw [he] at hargs; exact absurd hargs (by simp [failed])
    · obtain ⟨s, _, _, hdiv, _, _, hcal, _⟩ := assignGrid_some _ _ _ _ _ _ hg
      rw [hcal] at hargs
      have ha : (s.imagePts, s.objectPts) = args := Option.some.inj hargs
      subst ha
      exact ⟨hdiv, key _ hdiv⟩
  · intro m hm hall
    have hlenYX : 2 ≤ (initializePointMaps (checkInput inp).2).2.length := by
      by_contra hlt
      have h0 : (dxListOf (initializePointMaps (checkInput inp).2).2).length = 0 := by
        rw [dxListOf_length]; omega
      have hnil := List.length_eq_zero.mp h0
      rw [hnil] at hm
      have hnone : medianOf [] = none := rfl
      rw [hnone] at hm
      cases hm
    have hlenXY : 2 ≤ (initializePointMaps (checkInput inp).2).1.length := by
      rw [(initializePointMaps_length _).1, ← (initializePointMaps_length _).2]
      exact hlenYX
    obtain ⟨my, hmy⟩ := medianOf_some (dyListOf (initializePointMaps (checkInput inp).2).1)
      (by rw [dyListOf_length]; omega)
    have hchk : (checkInput inp).1 = "" := by
      by_contra hne
      have h2 : (checkInput inp).2 = [] := by
        unfold checkInput at hne ⊢
        split_ifs at hne ⊢ with h1
        · rfl
        · cases hrm : inp.rectsModel with
          | notObject => rfl
          | noArray => rfl
          | rects pRects =>
            rw [hrm] at hne
            dsimp only at hne ⊢
            split_ifs at hne ⊢ with h3
            · rfl
            · exact absurd rfl hne
      rw [h2] at hlenYX
      exact absurd hlenYX (by decide)
    have hcount : (columnScan m inp.tolerance (initializePointMaps (checkInput inp).2).2
        default default 0 0).count1 = 0 := by
      rw [columnScan_count1]
      have : (adjacentPairs (initializePointMaps (checkInput inp).2).2).countP
          (accepts (m * minTol m inp.tolerance) (m * maxTol m inp.tolerance)) = 0 := by
        rw [List.countP_eq_zero]
        intro pr hpr
        have := hall pr hpr
        simp [accepts, this]
      rw [this]; rfl
    have hcols : identifyColumns fsqrt (initializePointMaps (checkInput inp).2).2 default
        default 0 0 inp.tolerance (toInt inp.sepX) FLT_MAX
        = some ⟨errColumns1, m, (columnScan m inp.tolerance
            (initializePointMaps (checkInput inp).2).2 default default 0 0).tot1,
          (columnScan m inp.tolerance
            (initializePointMaps (checkInput inp).2).2 default default 0 0).tot2, 0,
          (columnScan m inp.tolerance
            (initializePointMaps (checkInput inp).2).2 default default 0 0).count2,
          FLT_MAX⟩ := by
      rw [identifyColumns_eq, hm]
      simp only [Option.map_some', columnsReport, hcount, if_true]
    have hrows : identifyRows fsqrt (initializePointMaps (checkInput inp).2).1 default
        default 0 0 inp.tolerance (toInt inp.sepY) FLT_MAX
        = some (rowsReport fsqrt my (rowScan my inp.tolerance
            (initializePointMaps (checkInput inp).2).1 default default 0 0)
            (toInt inp.sepY) FLT_MAX) := by
      rw [identifyRows_eq, hmy]; rfl
    have hjoin : ∀ b, joinErrors errColumns1 b ≠ "" := by
      intro b hb
      exact absurd (joinErrors_eq_empty _ _ hb).1 (by decide)
    refine ⟨failed (joinErrors errColumns1 (rowsReport fsqrt my (rowScan my inp.tolerance
      (initializePointMaps (checkInput inp).2).1 default default 0 0)
      (toInt inp.sepY) FLT_MAX).errMsg), ?_, hjoin _, rfl, rfl, rfl⟩
    unfold apply_matchGrid
    simp only [hchk, if_true, hcols, hrows, Option.some_bind, hjoin, if_false]

/-- A witness of C8: the regular 9-point grid, where the division is evaluated
with divisor 10, and three points at spacing 1/2, where the median is -1/2 and
no adjacent pair passes the 1-step test. -/
theorem centroid_division_guarded_witness :
    (∃ res, apply_matchGrid sqrtQ grid3x3Input = some res
      ∧ res.centroidDivisor = some 10 ∧ 0 < 10)
    ∧ (∃ res, apply_matchGrid sqrtQ halfStepInput = some res ∧ res.errMsg ≠ ""
      ∧ res.centroidDivisor = none ∧ res.calibrateArgs = none
      ∧ res.undistorted = false) := by
  constructor
  · have h : (apply_matchGrid sqrtQ grid3x3Input).bind (fun r => r.centroidDivisor)
        = some 10 := by decide!
    obtain ⟨res, hres, hdiv⟩ := Option.bind_eq_some.mp h
    exact ⟨res, hres, hdiv, ((centroid_division_guarded sqrtQ grid3x3Input).1 res hres).1
      10 hdiv⟩
  · exact (centroid_division_guarded sqrtQ halfStepInput).2.1 (-1 / 2) (by decide!)
      (by decide!)

/-! ## C9: fewer than 2 candidate points -/

/-- C9 at an array of two `rects` of which one has no numeric `x`: the size
check passes with an empty message, a single candidate point remains, the list
of differences is empty, and the run reads its element 0, for every `sqrt`. -/
theorem one_candidate_reads_empty_list (fsqrt : ℚ → ℚ) :
    (checkInput oneNumericInput).1 = ""
    ∧ candidatePoints (checkInput oneNumericInput).2 = [⟨1, 1⟩]
    ∧ dxListOf (initializePointMaps (checkInput oneNumericInput).2).2 = []
    ∧ medianOf [] = none
    ∧ identifyColumns fsqrt (initializePointMaps (checkInput oneNumericInput).2).2
        default default 0 0 (35 / 100) 5 FLT_MAX = none
    ∧ apply_matchGrid fsqrt oneNumericInput = none := by
  refine ⟨by decide!, by decide!, by decide!, by decide!, ?_, ?_⟩
  · rw [identifyColumns_eq]
    have h : medianOf (dxListOf (initializePointMaps (checkInput oneNumericInput).2).2)
        = none := by decide!
    rw [h]; rfl
  · have h : medianOf (dxListOf (initializePointMaps (checkInput oneNumericInput).2).2)
        = none := by decide!
    have hc : (checkInput oneNumericInput).1 = "" := by decide!
    unfold apply_matchGrid
    simp only [hc, if_true, identifyColumns_eq, h, Option.map_none', Option.bind,
      Option.none_bind]

/-! ## C10: what calibration receives -/

/-- C10, as stated, fails at the regular 9-point grid: the object points
handed to `calibrateImage` are not the reported recentred coordinates; the
first one handed over is (0,0,0) and the first one reported is (-1/2,-9/2,0). -/
theorem calibration_not_recentred :
    ((apply_matchGrid sqrtQ grid3x3Input).bind fun res => res.calibrateArgs).map
        (fun args => args.2)
      ≠ ((apply_matchGrid sqrtQ grid3x3Input).bind fun res => res.rects).map
        (fun rs => rs.map fun r => (⟨r.objX, r.objY, r.objZ⟩ : Point3f))
    ∧ ((apply_matchGrid sqrtQ grid3x3Input).bind fun res => res.calibrateArgs).map
        (fun args => args.2.head?) = some (some ⟨0, 0, 0⟩)
    ∧ ((apply_matchGrid sqrtQ grid3x3Input).bind fun res => res.rects).map
        (fun rs => rs.head?.map fun r => (r.objX, r.objY, r.objZ))
      = some (some (-1 / 2, -9 / 2, 0)) := by
  decide!

/-- C10, amended: when a run calls `calibrateImage`, the object points it hands
over are the accumulated grid coordinates `objectPts[i]` themselves, with
`z = 0`, neither recentred nor scaled; the `rects` output has one record per
object point and record `i` reports, for the image point `imagePts[i]` handed
over at the same index, `objX = sepX * (objectPts[i].x - centroid.x)`,
`objY = sepY * (objectPts[i].y - centroid.y)` and `objZ`. -/
theorem calibration_gets_grid_coordinates (fsqrt : ℚ → ℚ) (inp : StageInput)
    (res : StageResult) (imagePts : List Point2f) (objectPts : List Point3f)
    (hres : apply_matchGrid fsqrt inp = some res)
    (hcal : res.calibrateArgs = some (imagePts, objectPts)) :
    ∃ c rs, res.objCentroid = some c ∧ res.rects = some rs
      ∧ imagePts.length = objectPts.length ∧ rs.length = objectPts.length
      ∧ ∀ i, i < objectPts.length →
          ∃ ip op r, imagePts[i]? = some ip ∧ objectPts[i]? = some op ∧ rs[i]? = some r
            ∧ op.z = 0
            ∧ r.x = ip.x ∧ r.y = ip.y
            ∧ r.objX = inp.sepX * (op.x - c.x)
            ∧ r.objY = inp.sepY * (op.y - c.y)
            ∧ r.objZ = inp.objZ := by
  rcases apply_matchGrid_some fsqrt inp res hres with ⟨e, _, he⟩ | ⟨cols, rows, _, _, _, _,
    hg⟩
  · rw [he] at hcal; exact absurd hcal (by simp [failed])
  · obtain ⟨s, hs, _, _, hcen, hrects, hcal2, _⟩ := assignGrid_some _ _ _ _ _ _ hg
    rw [hcal2] at hcal
    have ha : (s.imagePts, s.objectPts) = (imagePts, objectPts) := Option.some.inj hcal
    obtain ⟨hi, ho⟩ := Prod.mk.inj ha
    obtain ⟨hlen, _, hz⟩ := (gridLoop_some _ _ _ _ _ _ hs).1
    rw [hi, ho] at hrects hlen
    rw [ho] at hz hcen
    refine ⟨_, _, hcen, hrects, hlen, by simp [outRects], ?_⟩
    intro i hlt
    have hlt2 : i < imagePts.length := by omega
    exact ⟨imagePts[i], objectPts[i], _, List.getElem?_eq_getElem hlt2,
      List.getElem?_eq_getElem hlt, outRects_getElem? _ _ _ _ _ i hlt hlt2,
      hz _ (List.getElem_mem hlt), rfl, rfl, rfl, rfl, rfl⟩

/-- A witness of C10 (amended): the regular 9-point grid. -/
theorem calibration_gets_grid_coordinates_witness :
    ∃ res imagePts objectPts c rs, apply_matchGrid sqrtQ grid3x3Input = some res
      ∧ res.calibrateArgs = some (imagePts, objectPts)
      ∧ res.objCentroid = some c ∧ res.rects = some rs
      ∧ imagePts.length = objectPts.length ∧ rs.length = objectPts.length := by
  have h : ((apply_matchGrid sqrtQ grid3x3Input).bind fun r => r.calibrateArgs).isSome
      = true := by decide!
  obtain ⟨args, hargs⟩ := Option.isSome_iff_exists.mp h
  obtain ⟨res, hres, hcal⟩ := Option.bind_eq_some.mp hargs
  obtain ⟨c, rs, h1, h2, h3, h4, _⟩ :=
    calibration_gets_grid_coordinates sqrtQ grid3x3Input res args.1 args.2 hres hcal
  exact ⟨res, args.1, args.2, c, rs, hres, hcal, h1, h2, h3, h4⟩

/-! ## C11: a run that ends with a message -/

/-- C11: whenever a run of `apply_matchGrid` ends with a non-empty message,
`calibrateImage` has not been called and `undistort` has not replaced
`model.image` (and no `rects` were written and no centroid division
evaluated); and each of the named causes ends the run with a non-empty
message: an empty model name, a named stage that is no object, a `rects` that
is no array or has fewer than 2 entries, and a non-empty message of
`identifyColumns` or of `identifyRows`. -/
theorem error_leaves_image_unchanged (fsqrt : ℚ → ℚ) (inp : StageInput) :
    (∀ res, apply_matchGrid fsqrt inp = some res → res.errMsg ≠ "" →
      res.calibrateArgs = none ∧ res.undistorted = false ∧ res.rects = none
        ∧ res.centroidDivisor = none)
    ∧ (inp.rectsModelName = "" →
        apply_matchGrid fsqrt inp
          = some (failed "matchGrid model: expected name of stage with rects"))
    ∧ (inp.rectsModelName ≠ "" → inp.rectsModel = .notObject →
        apply_matchGrid fsqrt inp = some (failed "Named stage is not in model"))
    ∧ (inp.rectsModelName ≠ "" → inp.rectsModel = .noArray →
        apply_matchGrid fsqrt inp = some (failed "Expected array of rects to match"))
    ∧ (inp.rectsModelName ≠ "" → ∀ pRects, inp.rectsModel = .rects pRects →
        pRects.length < 2 →
        apply_matchGrid fsqrt inp
          = some (failed "Expected array of at least 2 rects to match"))
    ∧ (∀ cols rows, (checkInput inp).1 = "" →
        identifyColumns fsqrt (initializePointMaps (checkInput inp).2).2 default default
          0 0 inp.tolerance (toInt inp.sepX) FLT_MAX = some cols →
        identifyRows fsqrt (initializePointMaps (checkInput inp).2).1 default default
          0 0 inp.tolerance (toInt inp.sepY) FLT_MAX = some rows →
        cols.errMsg ≠ "" ∨ rows.errMsg ≠ "" →
        joinErrors cols.errMsg rows.errMsg ≠ ""
          ∧ apply_matchGrid fsqrt inp
            = some (failed (joinErrors cols.errMsg rows.errMsg))) := by
  refine ⟨?_, ?_, ?_, ?_, ?_, ?_⟩
  · intro res hres herr
    rcases apply_matchGrid_some fsqrt inp res hres with ⟨e, _, he⟩ | ⟨cols, rows, _, _, _, _,
      hg⟩
    · subst he
      exact ⟨rfl, rfl, rfl, rfl⟩
    · obtain ⟨s, _, hempty, _⟩ := assignGrid_some _ _ _ _ _ _ hg
      exact absurd hempty herr
  · intro hname
    have hc : checkInput inp = ("matchGrid model: expected name of stage with rects", []) := by
      unfold checkInput; rw [if_pos hname]
    unfold apply_matchGrid
    simp only [hc]
    rw [if_neg (by decide)]
  · intro hname hm
    have hc : checkInput inp = ("Named stage is not in model", []) := by
      unfold checkInput; rw [if_neg hname, hm]
    unfold apply_matchGrid
    simp only [hc]
    rw [if_neg (by decide)]
  · intro hname hm
    have hc : checkInput inp = ("Expected array of rects to match", []) := by
      unfold checkInput; rw [if_neg hname, hm]
    unfold apply_matchGrid
    simp only [hc]
    rw [if_neg (by decide)]
  · intro hname pRects hm hlen
    have hc : checkInput inp = ("Expected array of at least 2 rects to match", []) := by
      unfold checkInput; rw [if_neg hname, hm]; simp only []; rw [if_pos hlen]
    unfold apply_matchGrid
    simp only [hc]
    rw [if_neg (by decide)]
  · intro cols rows hchk hcols hrows hne
    have hj : joinErrors cols.errMsg rows.errMsg ≠ "" := by
      intro h
      obtain ⟨h1, h2⟩ := joinErrors_eq_empty _ _ h
      rcases hne with hne | hne
      · exact hne h1
      · exact hne h2
    refine ⟨hj, ?_⟩
    unfold apply_matchGrid
    simp only [hchk, if_true, hcols, hrows, Option.some_bind, hj, if_false]

/-- A witness of C11: the 2 x 3 scenario, which ends with the level-2 message
of `identifyRows`. -/
theorem error_leaves_image_unchanged_witness :
    ∃ res, apply_matchGrid sqrtQ scenarioInput = some res ∧ res.errMsg ≠ ""
      ∧ res.calibrateArgs = none ∧ res.undistorted = false := by
  have h : apply_matchGrid sqrtQ scenarioInput = some (failed errRows2) := by decide!
  have hne : (failed errRows2).errMsg ≠ "" := by decide
  obtain ⟨h1, h2, _⟩ :=
    (error_leaves_image_unchanged sqrtQ scenarioInput).1 (failed errRows2) h hne
  exact ⟨failed errRows2, h, hne, h1, h2⟩

/-! ## C12: the scale and the separation -/

/-- C12 at the regular 9-point grid with `sepX = 2.5`: the separation reaches
`identifyColumns` as the `int` 2; the estimation succeeds with the 2-step
average `(-10, 0)` per step, of magnitude 10, and `gridX = 10 / 2 = 5`, so
`(gridX * sepX)^2 = 156.25` and not `(-10)^2 + 0^2 = 100`, and the image pitch
`gridX * sepX` that the grid assignment then uses is 12.5, not 10. -/
theorem scale_uses_truncated_separation :
    toInt halfSepInput.sepX = 2
    ∧ identifyColumns sqrtQ (initializePointMaps (checkInput halfSepInput).2).2 default
        default 0 0 halfSepInput.tolerance (toInt halfSepInput.sepX) FLT_MAX
      = some ⟨"", -10, ⟨-60, 0⟩, ⟨-60, 0⟩, 6, 3, 5⟩
    ∧ ((-60 : ℚ) / 3 / 2, (0 : ℚ) / 3 / 2) = (-10, 0)
    ∧ sqrtQ ((-10) * (-10) + 0 * 0) = 10
    ∧ (5 * halfSepInput.sepX) ^ 2 = 625 / 4
    ∧ (5 * halfSepInput.sepX) ^ 2 ≠ (-10 : ℚ) ^ 2 + 0 ^ 2
    ∧ 5 * halfSepInput.sepX = 25 / 2
    ∧ (apply_matchGrid sqrtQ halfSepInput).map (fun res => res.errMsg) = some "" := by
  decide!

/-! ## C13: the 1-step test -/

/-- C13 at the three points (0,0), (1/2,0), (1,0): the median is -1/2 and the
band is [-27/40, -13/40]; both adjacent pairs have the exact difference -1/2,
which lies in the band, but the difference is stored in an `int` first, as 0,
which does not: no pair is added, the 1-step count is 0 and
`identifyColumns` returns the level-1 message.  The same holds for
`identifyRows` on (0,0), (0,1/2), (0,1). -/
theorem band_test_truncates_difference :
    (initializePointMaps (checkInput halfStepInput).2).2 = [⟨0, 0⟩, ⟨1 / 2, 0⟩, ⟨1, 0⟩]
    ∧ identifyColumns sqrtQ [⟨0, 0⟩, ⟨1 / 2, 0⟩, ⟨1, 0⟩] default default 0 0 (35 / 100) 5
        FLT_MAX = some ⟨errColumns1, -1 / 2, ⟨0, 0⟩, ⟨-1, 0⟩, 0, 1, FLT_MAX⟩
    ∧ (-1 / 2 * minTol (-1 / 2) (35 / 100), -1 / 2 * maxTol (-1 / 2) (35 / 100))
        = ((-27 / 40 : ℚ), (-13 / 40 : ℚ))
    ∧ (adjacentPairs [⟨0, 0⟩, ⟨1 / 2, 0⟩, ⟨1, 0⟩]).countP
        (exactInBand (-1 / 2 * minTol (-1 / 2) (35 / 100))
          (-1 / 2 * maxTol (-1 / 2) (35 / 100))) = 2
    ∧ (adjacentPairs [⟨0, 0⟩, ⟨1 / 2, 0⟩, ⟨1, 0⟩]).countP
        (accepts (-1 / 2 * minTol (-1 / 2) (35 / 100))
          (-1 / 2 * maxTol (-1 / 2) (35 / 100))) = 0
    ∧ toInt ((0 : ℚ) - 1 / 2) = 0
    ∧ identifyRows sqrtQ [⟨0, 0⟩, ⟨0, 1 / 2⟩, ⟨0, 1⟩] default default 0 0 (35 / 100) 5
        FLT_MAX = some ⟨errRows1, -1 / 2, ⟨0, 0⟩, ⟨0, -1⟩, 0, 1, FLT_MAX⟩ := by
  decide!

/-! ## C14: the rounding of the first object point -/

/-- C14 at the regular 9-point grid with `x, y ∈ {-10, 0, 10}`: the image pitch
is (10, 10) and the first accepted pair starts at the image point (-10,-10),
so `v = -1` on both axes; the run emits the object point (0,0,0) for it,
the truncation of `v + 0.5`, where rounding to the nearest integer with
`v + (v < 0 ? -0.5 : 0.5)` gives (-1,-1). -/
theorem seed_rounding_adds_half :
    (emittedPairs (apply_matchGrid sqrtQ negGridInput)).head?
        = some (⟨-10, -10⟩, ⟨0, 0, 0⟩)
    ∧ (identifyColumns sqrtQ (initializePointMaps (checkInput negGridInput).2).2 default
        default 0 0 negGridInput.tolerance (toInt negGridInput.sepX) FLT_MAX).map
        (fun r => r.grid * negGridInput.sepX) = some 10
    ∧ (identifyRows sqrtQ (initializePointMaps (checkInput negGridInput).2).1 default
        default 0 0 negGridInput.tolerance (toInt negGridInput.sepY) FLT_MAX).map
        (fun r => r.grid * negGridInput.sepY) = some 10
    ∧ roundHalfAway ((-10 : ℚ) / 10) = -1
    ∧ toInt ((-10 : ℚ) / 10 + 1 / 2) = 0 := by
  decide!

/-! ## C15: the rounding of `calcObjPointDiff` -/

/-- C15, as stated, fails in binary32.  The displacement
(0.49999997, -0.49999997), whose coordinates are the binary32 value
`1/2 - 2^-25`, at pitch (1, 1) is 0.49999997 steps, nearer to 0 than to 1, and
rounding half away from zero as the specification words it gives 0.  The sum
`0.49999997 + 0.5` is not a binary32 value and is stored as 1, so
`calcObjPointDiff` returns (1, -1, 0), at a distance of more than 1/2 from the
quotient.  Likewise the displacement of 8388609 steps, an integer, gives
8388610. -/
theorem calcObjPointDiff_not_nearest :
    fl32 (16777215 / 33554432) = 16777215 / 33554432
    ∧ calcObjPointDiff ⟨16777215 / 33554432, -(16777215 / 33554432)⟩ ⟨0, 0⟩ ⟨1, 1⟩
        = ⟨1, -1, 0⟩
    ∧ roundHalfAway (((16777215 / 33554432 : ℚ) - 0) / 1) = 0
    ∧ roundHalfAway ((-(16777215 / 33554432 : ℚ) - 0) / 1) = 0
    ∧ ¬ |(1 : ℚ) - ((16777215 / 33554432 : ℚ) - 0) / 1| ≤ 1 / 2
    ∧ ¬ |(-1 : ℚ) - (-(16777215 / 33554432 : ℚ) - 0) / 1| ≤ 1 / 2
    ∧ fl32 8388609 = 8388609
    ∧ calcObjPointDiff ⟨8388609, 0⟩ ⟨0, 0⟩ ⟨1, 1⟩ = ⟨8388610, 0, 0⟩ := by
  decide!

/-- C15, amended: for all points `curPt`, `prevPt` whose coordinate
differences do not exceed `FLT_MAX` and every pitch `imgSep` with non-zero
components, let `vx` and `vy` be the binary32 quotients
`(curPt.x - prevPt.x) / imgSep.x` and `(curPt.y - prevPt.y) / imgSep.y`, of
magnitude at most 2^30.  `calcObjPointDiff` returns `(rx, ry, 0)` with integers
`rx`, `ry` within `1/2 + (|v| + 1/2) / 2^24` of `vx` and `vy`.  On an axis
where the sum of the quotient and its half is a binary32 value, the result is
within 1/2 of the quotient, and an exact half is rounded away from zero: when
the distance is exactly 1/2 the result has the larger magnitude.  (For a zero
component the source divides by zero, a difference above `FLT_MAX` is stored
as an infinity, and above 2^31 the conversion to `int` is undefined.) -/
theorem calcObjPointDiff_rounds_binary32 (curPt prevPt imgSep : Point2f)
    (_hx : imgSep.x ≠ 0) (_hy : imgSep.y ≠ 0)
    (_hdx : |curPt.x - prevPt.x| ≤ FLT_MAX) (_hdy : |curPt.y - prevPt.y| ≤ FLT_MAX)
    (hbx : |stepQuotient curPt.x prevPt.x imgSep.x| ≤ 1073741824)
    (hby : |stepQuotient curPt.y prevPt.y imgSep.y| ≤ 1073741824) :
    ∃ rx ry : Int, calcObjPointDiff curPt prevPt imgSep = ⟨rx, ry, 0⟩
      ∧ |(rx : ℚ) - stepQuotient curPt.x prevPt.x imgSep.x|
          ≤ 1 / 2 + (|stepQuotient curPt.x prevPt.x imgSep.x| + 1 / 2) / 16777216
      ∧ |(ry : ℚ) - stepQuotient curPt.y prevPt.y imgSep.y|
          ≤ 1 / 2 + (|stepQuotient curPt.y prevPt.y imgSep.y| + 1 / 2) / 16777216
      ∧ (fl32 (stepQuotient curPt.x prevPt.x imgSep.x
            + signedHalf (stepQuotient curPt.x prevPt.x imgSep.x))
          = stepQuotient curPt.x prevPt.x imgSep.x
            + signedHalf (stepQuotient curPt.x prevPt.x imgSep.x) →
          |(rx : ℚ) - stepQuotient curPt.x prevPt.x imgSep.x| ≤ 1 / 2
          ∧ (|(rx : ℚ) - stepQuotient curPt.x prevPt.x imgSep.x| = 1 / 2 →
              |stepQuotient curPt.x prevPt.x imgSep.x| < |(rx : ℚ)|))
      ∧ (fl32 (stepQuotient curPt.y prevPt.y imgSep.y
            + signedHalf (stepQuotient curPt.y prevPt.y imgSep.y))
          = stepQuotient curPt.y prevPt.y imgSep.y
            + signedHalf (stepQuotient curPt.y prevPt.y imgSep.y) →
          |(ry : ℚ) - stepQuotient curPt.y prevPt.y imgSep.y| ≤ 1 / 2
          ∧ (|(ry : ℚ) - stepQuotient curPt.y prevPt.y imgSep.y| = 1 / 2 →
              |stepQuotient curPt.y prevPt.y imgSep.y| < |(ry : ℚ)|)) := by
  obtain ⟨hx1, hx2⟩ := toInt_fl32_half _ hbx
  obtain ⟨hy1, hy2⟩ := toInt_fl32_half _ hby
  exact ⟨_, _, rfl, hx1, hy1, hx2, hy2⟩

/-- A witness of C15 (amended): the displacement (25, -25) at pitch (10, 10)
is 2.5 and -2.5 steps, the sums 3 and -3 are binary32 values, and the result
is (3, -3, 0). -/
theorem calcObjPointDiff_rounds_binary32_witness :
    calcObjPointDiff ⟨25, -25⟩ ⟨0, 0⟩ ⟨10, 10⟩ = ⟨3, -3, 0⟩
    ∧ stepQuotient 25 0 10 = 5 / 2
    ∧ stepQuotient (-25) 0 10 = -(5 / 2)
    ∧ ∃ rx ry : Int, calcObjPointDiff ⟨25, -25⟩ ⟨0, 0⟩ ⟨10, 10⟩ = ⟨rx, ry, 0⟩
      ∧ |(rx : ℚ) - stepQuotient 25 0 10| ≤ 1 / 2
      ∧ |(ry : ℚ) - stepQuotient (-25) 0 10| ≤ 1 / 2 := by
  obtain ⟨rx, ry, h, _, _, h1, h2⟩ := calcObjPointDiff_rounds_binary32
    ⟨25, -25⟩ ⟨0, 0⟩ ⟨10, 10⟩ (by norm_num) (by norm_num) (by decide!) (by decide!)
    (by decide!) (by decide!)
  exact ⟨by decide!, by decide!, by decide!, rx, ry, h, (h1 (by decide!)).1,
    (h2 (by decide!)).1⟩

/-! ## C16: which ordering each estimation runs over -/

/-- C16, as stated, fails on the 2 x 3 scenario: the vector `pointsYX` that
`identifyColumns` and the grid assignment run over is
[(0,0),(8,0),(16,0),(0,6),(8,6),(16,6)], which is not in column-major order,
and the vector `pointsXY` that `identifyRows` runs over is
[(0,0),(0,6),(8,0),(8,6),(16,0),(16,6)], which is not in row-major order.  Run
over the column-major view, `identifyColumns` would return its level-2
message, whereas the run reports no column failure: its message is the
level-2 message of `identifyRows` alone. -/
theorem column_estimation_not_column_major :
    (initializePointMaps (checkInput scenarioInput).2).2
        = [⟨0, 0⟩, ⟨8, 0⟩, ⟨16, 0⟩, ⟨0, 6⟩, ⟨8, 6⟩, ⟨16, 6⟩]
    ∧ ¬ colMajorOrdered (initializePointMaps (checkInput scenarioInput).2).2
    ∧ (initializePointMaps (checkInput scenarioInput).2).1
        = [⟨0, 0⟩, ⟨0, 6⟩, ⟨8, 0⟩, ⟨8, 6⟩, ⟨16, 0⟩, ⟨16, 6⟩]
    ∧ ¬ rowMajorOrdered (initializePointMaps (checkInput scenarioInput).2).1
    ∧ (identifyColumns sqrtQ (initializePointMaps (checkInput scenarioInput).2).1
        default default 0 0 (35 / 100) 4 FLT_MAX).map (fun r => r.errMsg)
        = some errColumns2
    ∧ (identifyColumns sqrtQ (initializePointMaps (checkInput scenarioInput).2).2
        default default 0 0 (35 / 100) 4 FLT_MAX).map (fun r => r.errMsg) = some ""
    ∧ (apply_matchGrid sqrtQ scenarioInput).map (fun res => res.errMsg)
        = some errRows2 := by
  decide!

/-- C16, amended: in a run of `apply_matchGrid` that passes the first checks,
`identifyColumns` and the grid assignment run over `pointsYX`, the candidate
points sorted with `COMPARE_YX`, and `identifyRows` runs over `pointsXY`, the
candidate points sorted with `COMPARE_XY`.  Both views are permutations of the
candidate points.  For candidate points with integer coordinates of magnitude
at most 2^23 (where the differences that the comparator stores in an `int` are
exact), `pointsYX` is in row-major order (ascending `y`, ties by ascending
`x`) and `pointsXY` in column-major order (ascending `x`, ties by ascending
`y`), and each is the only arrangement of the candidate points in that
order. -/
theorem estimations_run_over_sorted_views (fsqrt : ℚ → ℚ) (inp : StageInput) :
    ((checkInput inp).1 = "" →
      apply_matchGrid fsqrt inp
        = (identifyColumns fsqrt
            (cvSort (ComparePoint2f .COMPARE_YX) (candidatePoints (checkInput inp).2))
            default default 0 0 inp.tolerance (toInt inp.sepX) FLT_MAX).bind fun cols =>
          (identifyRows fsqrt
            (cvSort (ComparePoint2f .COMPARE_XY) (candidatePoints (checkInput inp).2))
            default default 0 0 inp.tolerance (toInt inp.sepY) FLT_MAX).bind fun rows =>
          if joinErrors cols.errMsg rows.errMsg = "" then
            assignGrid inp
              (cvSort (ComparePoint2f .COMPARE_YX) (candidatePoints (checkInput inp).2))
              ⟨cols.median, rows.median⟩ cols.grid rows.grid
          else some (failed (joinErrors cols.errMsg rows.errMsg)))
    ∧ (cvSort (ComparePoint2f .COMPARE_YX) (candidatePoints (checkInput inp).2)).Perm
        (candidatePoints (checkInput inp).2)
    ∧ (cvSort (ComparePoint2f .COMPARE_XY) (candidatePoints (checkInput inp).2)).Perm
        (candidatePoints (checkInput inp).2)
    ∧ ((∀ p ∈ candidatePoints (checkInput inp).2, IsSmallIntPoint p) →
        rowMajorOrdered
          (cvSort (ComparePoint2f .COMPARE_YX) (candidatePoints (checkInput inp).2))
        ∧ colMajorOrdered
          (cvSort (ComparePoint2f .COMPARE_XY) (candidatePoints (checkInput inp).2))
        ∧ (∀ l : List Point2f, l.Perm (candidatePoints (checkInput inp).2) →
            l.Pairwise lexYX →
            l = cvSort (ComparePoint2f .COMPARE_YX) (candidatePoints (checkInput inp).2))
        ∧ (∀ l : List Point2f, l.Perm (candidatePoints (checkInput inp).2) →
            l.Pairwise lexXY →
            l = cvSort (ComparePoint2f .COMPARE_XY)
              (candidatePoints (checkInput inp).2))) := by
  refine ⟨?_, cvSort_perm _ _, cvSort_perm _ _, ?_⟩
  · intro hchk
    unfold apply_matchGrid initializePointMaps
    simp only [hchk, if_true]
  · intro hint
    exact ⟨(initializePointMaps_ordered _ hint).2, (initializePointMaps_ordered _ hint).1,
      (initializePointMaps_unique _ hint).2, (initializePointMaps_unique _ hint).1⟩

/-- A witness of C16 (amended): the 2 x 3 scenario, whose candidate points
have integer coordinates between 0 and 16. -/
theorem estimations_run_over_sorted_views_witness :
    (checkInput scenarioInput).1 = ""
    ∧ (∀ p ∈ candidatePoints (checkInput scenarioInput).2, IsSmallIntPoint p)
    ∧ rowMajorOrdered
        (cvSort (ComparePoint2f .COMPARE_YX) (candidatePoints (checkInput scenarioInput).2))
    ∧ colMajorOrdered
        (cvSort (ComparePoint2f .COMPARE_XY)
          (candidatePoints (checkInput scenarioInput).2)) := by
  have hc : candidatePoints (checkInput scenarioInput).2
      = [⟨0, 0⟩, ⟨8, 0⟩, ⟨16, 0⟩, ⟨0, 6⟩, ⟨8, 6⟩, ⟨16, 6⟩] := by decide!
  have hint : ∀ p ∈ candidatePoints (checkInput scenarioInput).2, IsSmallIntPoint p := by
    intro p hp
    rw [hc] at hp
    simp only [List.mem_cons, List.mem_singleton, List.not_mem_nil, or_false] at hp
    rcases hp with h | h | h | h | h | h <;> subst h
    · exact ⟨⟨0, by norm_num, by decide, by decide⟩, ⟨0, by norm_num, by decide, by decide⟩⟩
    · exact ⟨⟨8, by norm_num, by decide, by decide⟩, ⟨0, by norm_num, by decide, by decide⟩⟩
    · exact ⟨⟨16, by norm_num, by decide, by decide⟩, ⟨0, by norm_num, by decide, by decide⟩⟩
    · exact ⟨⟨0, by norm_num, by decide, by decide⟩, ⟨6, by norm_num, by decide, by decide⟩⟩
    · exact ⟨⟨8, by norm_num, by decide, by decide⟩, ⟨6, by norm_num, by decide, by decide⟩⟩
    · exact ⟨⟨16, by norm_num, by decide, by decide⟩, ⟨6, by norm_num, by decide, by decide⟩⟩
  obtain ⟨h1, h2, _⟩ := (estimations_run_over_sorted_views sqrtQ scenarioInput).2.2.2 hint
  exact ⟨by decide!, hint, h1, h2⟩

/-! ## C17: the two estimations are one algorithm -/

/-- C17: `identifyRows` on a point sequence and `identifyColumns` on the
sequence with the `x` and `y` of every point (and of the sums passed in)
exchanged read past the end of the difference list on the same inputs, and
otherwise `identifyColumns` returns the same median, 1-step count, 2-step
count and grid scale, the 1-step and 2-step sums with their axes exchanged,
and a message of the same level: both empty, both level 1, or both level 2. -/
theorem rows_are_columns_swapped (fsqrt : ℚ → ℚ) (pts : List Point2f) (tot1 tot2 : Point2f)
    (c1 c2 : Int) (tol : ℚ) (sep : Int) (grid : ℚ) :
    (identifyRows fsqrt pts tot1 tot2 c1 c2 tol sep grid = none ↔
      identifyColumns fsqrt (pts.map swapXY) (swapXY tot1) (swapXY tot2) c1 c2 tol sep grid
        = none)
    ∧ ∀ r, identifyRows fsqrt pts tot1 tot2 c1 c2 tol sep grid = some r →
        ∃ c, identifyColumns fsqrt (pts.map swapXY) (swapXY tot1) (swapXY tot2) c1 c2 tol
            sep grid = some c
          ∧ c.median = r.median ∧ c.count1 = r.count1 ∧ c.count2 = r.count2
          ∧ c.grid = r.grid ∧ c.tot1 = swapXY r.tot1 ∧ c.tot2 = swapXY r.tot2
          ∧ ((r.errMsg = "" ∧ c.errMsg = "") ∨ (r.errMsg = errRows1 ∧ c.errMsg = errColumns1)
            ∨ (r.errMsg = errRows2 ∧ c.errMsg = errColumns2)) := by
  have h := identifyRows_swap fsqrt pts tot1 tot2 c1 c2 tol sep grid
  constructor
  · rw [← h]
    cases identifyRows fsqrt pts tot1 tot2 c1 c2 tol sep grid <;> simp
  · intro r hr
    rw [hr] at h
    refine ⟨rowsAsColumns r, h.symm, rfl, rfl, rfl, rfl, rfl, rfl, ?_⟩
    rw [identifyRows_eq] at hr
    obtain ⟨m, _, hrep⟩ := Option.map_eq_some'.mp hr
    have hmsg : r.errMsg = errRows1 ∨ r.errMsg = errRows2 ∨ r.errMsg = "" := by
      rw [← hrep]
      unfold rowsReport
      split_ifs
      · exact Or.inl rfl
      · exact Or.inr (Or.inl rfl)
      · exact Or.inr (Or.inr rfl)
    have e1 : ¬ errRows2 = errRows1 := by decide
    have e2 : ¬ "" = errRows1 := by decide
    have e3 : ¬ "" = errRows2 := by decide
    unfold rowsAsColumns
    rcases hmsg with hm | hm | hm
    · exact Or.inr (Or.inl ⟨hm, by simp only [hm, if_true]⟩)
    · exact Or.inr (Or.inr ⟨hm, by simp only [hm, if_neg e1, if_true]⟩)
    · exact Or.inl ⟨hm, by simp only [hm, if_neg e2, if_neg e3]⟩

/-- A witness of C17: the column-major view of the regular 9-point grid, on
which `identifyRows` succeeds with median -10 and grid scale 2. -/
theorem rows_are_columns_swapped_witness :
    ∃ r c, identifyRows sqrtQ (initializePointMaps
          [realRect 0 0, realRect 10 0, realRect 20 0, realRect 0 10, realRect 10 10,
            realRect 20 10, realRect 0 20, realRect 10 20, realRect 20 20]).1
          default default 0 0 (35 / 100) 5 FLT_MAX = some r
      ∧ identifyColumns sqrtQ ((initializePointMaps
          [realRect 0 0, realRect 10 0, realRect 20 0, realRect 0 10, realRect 10 10,
            realRect 20 10, realRect 0 20, realRect 10 20, realRect 20 20]).1.map swapXY)
          (swapXY default) (swapXY default) 0 0 (35 / 100) 5 FLT_MAX = some c
      ∧ r.median = -10 ∧ r.grid = 2 ∧ c.median = r.median ∧ c.grid = r.grid := by
  have hr : identifyRows sqrtQ (initializePointMaps
      [realRect 0 0, realRect 10 0, realRect 20 0, realRect 0 10, realRect 10 10,
        realRect 20 10, realRect 0 20, realRect 10 20, realRect 20 20]).1
      default default 0 0 (35 / 100) 5 FLT_MAX
      = some ⟨"", -10, ⟨0, -60⟩, ⟨0, -60⟩, 6, 3, 2⟩ := by decide!
  obtain ⟨c, hc, h1, _, _, h4, _⟩ := (rows_are_columns_swapped sqrtQ _ default default 0 0
    (35 / 100) 5 FLT_MAX).2 _ hr
  exact ⟨_, c, hr, hc, rfl, rfl, h1, h4⟩

/-! ## C18: inputs of exactly 2 points -/

/-- C18: on every sequence of exactly 2 points, `identifyColumns` and
`identifyRows` (counts initialised to 0) return a result whose 2-step count is
0, whose message is non-empty and whose grid scale is the value passed in; and
every run of `apply_matchGrid` that passes the first checks with exactly 2
candidate points ends with a non-empty message, without centroid division,
`rects`, `calibrateImage` or `undistort`. -/
theorem two_points_never_succeed (fsqrt : ℚ → ℚ) :
    (∀ (pts : List Point2f) (tot1 tot2 : Point2f) (tol : ℚ) (sep : Int) (grid : ℚ),
      pts.length = 2 →
      (∃ r, identifyColumns fsqrt pts tot1 tot2 0 0 tol sep grid = some r
        ∧ r.count2 = 0 ∧ r.errMsg ≠ "" ∧ r.grid = grid)
      ∧ (∃ r, identifyRows fsqrt pts tot1 tot2 0 0 tol sep grid = some r
        ∧ r.count2 = 0 ∧ r.errMsg ≠ "" ∧ r.grid = grid))
    ∧ (∀ inp : StageInput, (checkInput inp).1 = "" →
        (candidatePoints (checkInput inp).2).length = 2 →
        ∃ res, apply_matchGrid fsqrt inp = some res ∧ res.errMsg ≠ ""
          ∧ res.centroidDivisor = none ∧ res.rects = none ∧ res.calibrateArgs = none
          ∧ res.undistorted = false) := by
  have haxis : ∀ (pts : List Point2f) (tot1 tot2 : Point2f) (tol : ℚ) (sep : Int)
      (grid : ℚ), pts.length = 2 →
      (∃ r, identifyColumns fsqrt pts tot1 tot2 0 0 tol sep grid = some r
        ∧ r.count2 = 0 ∧ r.errMsg ≠ "" ∧ r.grid = grid)
      ∧ (∃ r, identifyRows fsqrt pts tot1 tot2 0 0 tol sep grid = some r
        ∧ r.count2 = 0 ∧ r.errMsg ≠ "" ∧ r.grid = grid) := by
    intro pts tot1 tot2 tol sep grid hlen
    obtain ⟨p, q, hpq⟩ := List.length_eq_two.mp hlen
    subst hpq
    constructor
    · obtain ⟨m, hm⟩ := medianOf_some (dxListOf [p, q]) (by simp [dxListOf, dxListFrom])
      have h2 := columnScan_two m tol p q tot1 tot2 0 0
      have hmono := foldl_columnStep_mono (m * minTol m tol) (m * maxTol m tol)
        (2 * m * minTol m tol) (2 * m * maxTol m tol) [p, q]
        ⟨default, default, 0, tot1, tot2, 0, 0⟩
      obtain ⟨_, a2, _, a4, _, _, a7, _⟩ := columnsReport_spec fsqrt m
        (columnScan m tol [p, q] tot1 tot2 0 0) sep grid hmono.1 hmono.2
      have herr := a4.mpr (Or.inr h2)
      refine ⟨columnsReport fsqrt m (columnScan m tol [p, q] tot1 tot2 0 0) sep grid, ?_,
        a2.trans h2, herr, a7 herr⟩
      rw [identifyColumns_eq, hm]; rfl
    · obtain ⟨m, hm⟩ := medianOf_some (dyListOf [p, q]) (by simp [dyListOf, dyListFrom])
      have h2 := rowScan_two m tol p q tot1 tot2 0 0
      have hmono := foldl_rowStep_mono (m * minTol m tol) (m * maxTol m tol)
        (2 * m * minTol m tol) (2 * m * maxTol m tol) [p, q]
        ⟨default, default, 0, tot1, tot2, 0, 0⟩
      obtain ⟨_, a2, _, a4, _, _, a7, _⟩ := rowsReport_spec fsqrt m
        (rowScan m tol [p, q] tot1 tot2 0 0) sep grid hmono.1 hmono.2
      have herr := a4.mpr (Or.inr h2)
      refine ⟨rowsReport fsqrt m (rowScan m tol [p, q] tot1 tot2 0 0) sep grid, ?_,
        a2.trans h2, herr, a7 herr⟩
      rw [identifyRows_eq, hm]; rfl
  refine ⟨haxis, ?_⟩
  intro inp hchk hlen
  obtain ⟨cols, hcols, _, hcerr, _⟩ := (haxis (initializePointMaps (checkInput inp).2).2
    default default inp.tolerance (toInt inp.sepX) FLT_MAX
    ((initializePointMaps_length _).2.trans hlen)).1
  obtain ⟨rows, hrows, _, _, _⟩ := (haxis (initializePointMaps (checkInput inp).2).1
    default default inp.tolerance (toInt inp.sepY) FLT_MAX
    ((initializePointMaps_length _).1.trans hlen)).2
  exact ⟨_, apply_matchGrid_axis_error fsqrt inp cols rows hchk hcols hrows (Or.inl hcerr),
    joinErrors_ne_empty _ _ (Or.inl hcerr), rfl, rfl, rfl, rfl⟩

/-- A witness of C18: the two points (0,0) and (10,0), which pass the size
check of `apply_matchGrid`. -/
theorem two_points_never_succeed_witness :
    (checkInput ⟨"grid", 0, 5, 5, 35 / 100, .rects [realRect 0 0, realRect 10 0]⟩).1 = ""
    ∧ ∃ res, apply_matchGrid sqrtQ
          ⟨"grid", 0, 5, 5, 35 / 100, .rects [realRect 0 0, realRect 10 0]⟩ = some res
        ∧ res.errMsg ≠ "" ∧ res.centroidDivisor = none ∧ res.rects = none
        ∧ res.calibrateArgs = none ∧ res.undistorted = false :=
  ⟨by decide!, (two_points_never_succeed sqrtQ).2
    ⟨"grid", 0, 5, 5, 35 / 100, .rects [realRect 0 0, realRect 10 0]⟩ (by decide!)
    (by decide!)⟩

/-! ## C19: integer coordinates pass level 1 -/

/-- C20: whenever a run ends with an empty message, so that the grid assignment
has run, the 1-step count `dxCount1` of `identifyColumns` is the number of
adjacent pairs of `pointsYX` that pass the 1-step test of the band of the
column median; every iteration of the grid assignment emits entries exactly
when its pair `(ptImg0, ptImg1)` passes that same test, keeps `imagePts` and
`objectPts` at the same length and moves `ptImg0` to `ptImg1`; the two vectors
have the same length after every prefix of the traversal; and at the end
their common length `n` satisfies `dxCount1 + 1 <= n <= 2 * dxCount1`. -/
theorem grid_assignment_counts (fsqrt : ℚ → ℚ) (inp : StageInput) (res : StageResult)
    (hres : apply_matchGrid fsqrt inp = some res) (hok : res.errMsg = "") :
    ∃ cols imagePts objectPts,
      identifyColumns fsqrt (initializePointMaps (checkInput inp).2).2 default default
        0 0 inp.tolerance (toInt inp.sepX) FLT_MAX = some cols
      ∧ res.calibrateArgs = some (imagePts, objectPts)
      ∧ cols.count1 = ((adjacentPairs (initializePointMaps (checkInput inp).2).2).countP
          (accepts (cols.median * minTol cols.median inp.tolerance)
            (cols.median * maxTol cols.median inp.tolerance)) : Nat)
      ∧ (∀ (dx : Int) (imgSep : Point2f) (s : GridState) (ptImg1 : Point2f),
          s.imagePts.length = s.objectPts.length →
          ((gridStep (cols.median * minTol cols.median inp.tolerance)
              (cols.median * maxTol cols.median inp.tolerance) dx imgSep s
              ptImg1).objectPts.length ≠ s.objectPts.length ↔
            accepts (cols.median * minTol cols.median inp.tolerance)
              (cols.median * maxTol cols.median inp.tolerance) (s.ptImg0, ptImg1) = true)
          ∧ (gridStep (cols.median * minTol cols.median inp.tolerance)
              (cols.median * maxTol cols.median inp.tolerance) dx imgSep s
              ptImg1).imagePts.length
            = (gridStep (cols.median * minTol cols.median inp.tolerance)
              (cols.median * maxTol cols.median inp.tolerance) dx imgSep s
              ptImg1).objectPts.length
          ∧ (gridStep (cols.median * minTol cols.median inp.tolerance)
              (cols.median * maxTol cols.median inp.tolerance) dx imgSep s
              ptImg1).ptImg0 = ptImg1)
      ∧ (∀ (dx : Int) (imgSep : Point2f) (j : Nat) (s : GridState),
          gridLoop (cols.median * minTol cols.median inp.tolerance)
            (cols.median * maxTol cols.median inp.tolerance) dx imgSep
            ((initializePointMaps (checkInput inp).2).2.take j) = some s →
          s.imagePts.length = s.objectPts.length)
      ∧ imagePts.length = objectPts.length
      ∧ cols.count1 + 1 ≤ objectPts.length
      ∧ (objectPts.length : Int) ≤ 2 * cols.count1 := by
  rcases apply_matchGrid_some fsqrt inp res hres with ⟨e, hne, he⟩ | ⟨cols, rows, hc, _, hce,
    _, hg⟩
  · subst he
    exact absurd hok hne
  · obtain ⟨s, hs, _, _, _, _, hcal, _⟩ := assignGrid_some _ _ _ _ _ _ hg
    have hcount := identifyColumns_count1 fsqrt _ default default 0 inp.tolerance
      (toInt inp.sepX) FLT_MAX cols hc
    obtain ⟨hlen, _, hbound⟩ := gridLoop_count _ _ _ _ _ s hs
    have hpos : 0 < cols.count1 :=
      (identifyColumns_success_counts fsqrt _ default default inp.tolerance (toInt inp.sepX)
        FLT_MAX cols hc hce).1
    have hk : 0 < (adjacentPairs (initializePointMaps (checkInput inp).2).2).countP
        (accepts (cols.median * minTol cols.median inp.tolerance)
          (cols.median * maxTol cols.median inp.tolerance)) := by
      rw [hcount] at hpos
      exact_mod_cast hpos
    obtain ⟨hb1, hb2⟩ := hbound hk
    refine ⟨cols, s.imagePts, s.objectPts, hc, hcal, hcount, ?_, ?_, hlen, ?_, ?_⟩
    · intro dx imgSep st q hl
      obtain ⟨e1, e2⟩ := gridStep_emits _ _ dx imgSep st q hl
      exact ⟨e1, e2, rfl⟩
    · intro dx imgSep j st hst
      exact (gridLoop_count _ _ _ _ _ st hst).1
    · rw [hcount]
      exact_mod_cast hb1
    · rw [hcount]
      exact_mod_cast hb2

/-- A witness of C20: the regular 9-point grid, where `dxCount1 = 6` and the
assignment ends with 10 entries in each vector. -/
theorem grid_assignment_counts_witness :
    ∃ res cols imagePts objectPts, apply_matchGrid sqrtQ grid3x3Input = some res
      ∧ res.errMsg = ""
      ∧ identifyColumns sqrtQ (initializePointMaps (checkInput grid3x3Input).2).2 default
          default 0 0 grid3x3Input.tolerance (toInt grid3x3Input.sepX) FLT_MAX = some cols
      ∧ res.calibrateArgs = some (imagePts, objectPts)
      ∧ imagePts.length = objectPts.length
      ∧ cols.count1 + 1 ≤ objectPts.length
      ∧ (objectPts.length : Int) ≤ 2 * cols.count1 := by
  have h : ((apply_matchGrid sqrtQ grid3x3Input).map fun r => r.errMsg) = some "" := by
    decide!
  obtain ⟨res, hres, hok⟩ := Option.map_eq_some'.mp h
  obtain ⟨cols, imagePts, objectPts, h1, h2, _, _, _, h3, h4, h5⟩ :=
    grid_assignment_counts sqrtQ grid3x3Input res hres hok
  exact ⟨res, cols, imagePts, objectPts, hres, hok, h1, h2, h3, h4, h5⟩

end FireSight
